import Mathlib

/-!
Verification development for the `terraform-plugin-framework-nettypes`
library: custom Terraform string value types for IP addresses, CIDR
prefixes and MAC addresses.

The library's domain logic is a thin layer over the Go standard library
parsers `net/netip.ParseAddr`, `net/netip.ParsePrefix` and
`net.ParseMAC`.  The development therefore embeds those parsers
faithfully (translated from the Go standard library sources, including
the exact error message texts that the repository's own tests pin), and
on top of them the value types' validators, semantic-equality
comparators and typed accessors, translated from the repository's
sources (`iptypes`, `cidrtypes`, `hwtypes` packages).

Go strings are modelled as Lean `String`s (all inputs of interest are
ASCII, where Go's byte indexing and Lean's character indexing agree);
Go byte slices as `List Nat`; Go's `(T, error)` returns as
`Except String T` carrying the rendered `err.Error()` text; Go's
multiple return `(T, diag.Diagnostics)` as `T × List Diagnostic`.
-/

/-! ## Small helpers: hex digits and `strconv.Quote` on ASCII text -/

/-- Value of a hexadecimal digit character, mirroring the character
classes tested by Go (`0-9`, `a-f`, `A-F`). -/
def hexDigitVal (c : Char) : Option Nat :=
  if '0' ≤ c ∧ c ≤ '9' then some (c.toNat - '0'.toNat)
  else if 'a' ≤ c ∧ c ≤ 'f' then some (c.toNat - 'a'.toNat + 10)
  else if 'A' ≤ c ∧ c ≤ 'F' then some (c.toNat - 'A'.toNat + 10)
  else none

/-- Lower-case hex digit character for a value below 16. -/
def hexDigitChar (n : Nat) : Char :=
  if n < 10 then Char.ofNat ('0'.toNat + n) else Char.ofNat ('a'.toNat + n - 10)

/-- Two-digit lower-case hex rendering of a byte. -/
def hexByte (n : Nat) : String :=
  String.mk [hexDigitChar (n / 16), hexDigitChar (n % 16)]

/-- One character of Go `strconv.Quote`, for ASCII input (the escapes Go
produces for printable ASCII, quote, backslash, and the C0 controls;
non-ASCII is hex-escaped here, which agrees with Go on all inputs used
in this development). -/
def goQuoteChar (c : Char) : String :=
  if c = '"' then "\\\""
  else if c = '\\' then "\\\\"
  else if 0x20 ≤ c.toNat ∧ c.toNat ≤ 0x7e then String.mk [c]
  else if c = '\n' then "\\n"
  else if c = '\t' then "\\t"
  else if c = '\r' then "\\r"
  else "\\x" ++ hexByte (c.toNat % 256)

/-- Go `strconv.Quote` on ASCII text: the string in double quotes with
Go's escapes applied. -/
def goQuote (s : String) : String :=
  "\"" ++ String.join (s.data.map goQuoteChar) ++ "\""

/-! ## The `net/netip` address model

Go's `netip.Addr` is a 128-bit integer plus a discriminator `z`:
`z0` for the zero (invalid) `Addr{}`, `z4` for an IPv4 address,
and for IPv6 the zone string (empty string standing for Go's `z6noz`).
`==` on `netip.Addr` compares both components. -/

/-- The `z` discriminator of `netip.Addr`: `z0` (zero value), `z4`
(IPv4), or `z6 zone` (IPv6; `z6 ""` is Go's `z6noz`). -/
inductive Zdisc where
  | z0 : Zdisc
  | z4 : Zdisc
  | z6 : String → Zdisc
deriving DecidableEq, Repr

/-- `netip.Addr`: the 128-bit address value and the `z` discriminator. -/
structure Addr where
  addr : Nat
  z : Zdisc
deriving DecidableEq, Repr

/-- The zero `netip.Addr{}`. -/
def Addr.zero : Addr := ⟨0, .z0⟩

/-- `netip.Addr.IsValid`: the address is not the zero `Addr`. -/
def Addr.isValid (a : Addr) : Bool := a.z ≠ .z0

/-- `netip.Addr.Is4`: the discriminator is `z4`. -/
def Addr.is4 (a : Addr) : Bool := a.z = .z4

/-- `netip.Addr.Is6`: the discriminator is neither `z0` nor `z4`. -/
def Addr.is6 (a : Addr) : Bool := a.z ≠ .z0 ∧ a.z ≠ .z4

/-- `netip.Addr.Zone`: the zone string of an IPv6 address, `""` otherwise. -/
def Addr.zoneStr : Addr → String
  | ⟨_, .z6 zn⟩ => zn
  | _ => ""

/-- `netip.Addr.BitLen`: 32 for IPv4, 128 for IPv6, 0 for the zero `Addr`. -/
def Addr.bitLen : Addr → Nat
  | ⟨_, .z0⟩ => 0
  | ⟨_, .z4⟩ => 32
  | ⟨_, .z6 _⟩ => 128

/-- `netip.Addr.WithZone`: no effect on a non-IPv6 address; otherwise the
zone is replaced (`""` giving `z6noz`). -/
def Addr.withZone (a : Addr) (zone : String) : Addr :=
  if a.is6 then ⟨a.addr, .z6 zone⟩ else a

/-- `netip.Addr.withoutZone`: drop the zone of an IPv6 address. -/
def Addr.withoutZone (a : Addr) : Addr :=
  if a.is6 then ⟨a.addr, .z6 ""⟩ else a

/-- Big-endian value of a byte list. -/
def beBytesToNat (l : List Nat) : Nat := l.foldl (fun acc b => acc * 256 + b) 0

/-- `netip.AddrFrom4`: an IPv4 `Addr` stores its four bytes in the low 32
bits of the v4-mapped 128-bit form, with discriminator `z4`. -/
def addrFrom4 (b : List Nat) : Addr :=
  ⟨0xffff * 2 ^ 32 + beBytesToNat b, .z4⟩

/-- `netip.AddrFrom16`: the sixteen bytes big-endian, discriminator `z6noz`. -/
def addrFrom16 (b : List Nat) : Addr :=
  ⟨beBytesToNat b, .z6 ""⟩

/-- `netip.IPv6Unspecified()`: the all-zero IPv6 address (`::`). -/
def ipv6Unspecified : Addr := ⟨0, .z6 ""⟩

/-- Rendering of `netip.parseAddrError.Error()`:
`ParseAddr("<in>"): <msg>` with an optional ` (at "<at>")` suffix. -/
def parseAddrErr (inp msg atText : String) : String :=
  if atText = "" then "ParseAddr(" ++ goQuote inp ++ "): " ++ msg
  else "ParseAddr(" ++ goQuote inp ++ "): " ++ msg ++ " (at " ++ goQuote atText ++ ")"

/-! ## `netip.parseIPv4Fields` and `netip.parseIPv4`

Translated from Go. The Go loop walks the string by index `i`, keeping
the current octet value `val`, its digit count `digLen`, and the octets
already completed. The index-based conditions `i == 0`,
`s[i-1] == '.'` and `i == len(s)-1` become, in the structural recursion
below, `prev = none`, `prev = some '.'` and `rest = []`. -/

/-- The loop body of Go `parseIPv4Fields(in, off, end, fields)` applied to
the character list `s` (which is `in[off:end]`); `inp` is the full
original string used in error texts, `prev` the previously consumed
character (none at the start). Returns the four octets. -/
def parseIPv4Fields (inp : String) :
    List Char → Option Char → Nat → Nat → List Nat → Except String (List Nat)
  | [], _, val, _, fields =>
    if fields.length < 3 then
      .error (parseAddrErr inp "IPv4 address too short" "")
    else
      .ok (fields ++ [val])
  | c :: rest, prev, val, digLen, fields =>
    if '0' ≤ c ∧ c ≤ '9' then
      if digLen = 1 ∧ val = 0 then
        .error (parseAddrErr inp "IPv4 field has octet with leading zero" "")
      else
        let val2 := val * 10 + (c.toNat - '0'.toNat)
        if val2 > 255 then
          .error (parseAddrErr inp "IPv4 field has value >255" "")
        else
          parseIPv4Fields inp rest (some c) val2 (digLen + 1) fields
    else if c = '.' then
      if prev = none ∨ rest = [] ∨ prev = some '.' then
        .error (parseAddrErr inp "IPv4 field must have at least one digit" (String.mk (c :: rest)))
      else if fields.length = 3 then
        .error (parseAddrErr inp "IPv4 address too long" (String.mk (c :: rest)))
      else
        parseIPv4Fields inp rest (some c) 0 0 (fields ++ [val])
    else
      .error (parseAddrErr inp "unexpected character" (String.mk (c :: rest)))

/-- `netip.parseIPv4`: parse the whole string as dotted-decimal IPv4. -/
def parseIPv4 (s : String) : Except String Addr :=
  match parseIPv4Fields s s.data none 0 0 [] with
  | .error e => .error e
  | .ok fields => .ok (addrFrom4 fields)

/-! ## `netip.parseIPv6`

Translated from Go. The outer loop repeatedly parses a 16-bit hex
field, then a colon (possibly `::`), until 16 bytes are filled or the
string ends; a `.` after a hex field switches to an embedded
dotted-decimal IPv4 suffix. Go's loop re-slices the string; here the
remaining characters are passed along, with a fuel counter that starts
at `length + 1`: every iteration consumes at least one character, so
the fuel never runs out (the fuel-exhausted branch is unreachable). -/

/-- The inner hex-number loop of `parseIPv6`: consume leading hex digits
of the remainder, accumulating into `acc`; `s0` is the remainder at the
start of the field (used in the overflow error's `at` text). Returns
the count of digits consumed, the accumulator and the rest. -/
def ipv6HexField (inp : String) (s0 : List Char) :
    List Char → Nat → Nat → Except String (Nat × Nat × List Char)
  | [], off, acc => .ok (off, acc, [])
  | c :: rest, off, acc =>
    match hexDigitVal c with
    | some d =>
      let acc2 := acc * 16 + d
      if acc2 > 0xFFFF then
        .error (parseAddrErr inp "IPv6 field has value >=2^16" (String.mk s0))
      else
        ipv6HexField inp s0 rest (off + 1) acc2
    | none => .ok (off, acc, c :: rest)

/-- The code after `parseIPv6`'s loop: reject trailing text, expand the
`::` ellipsis (inserting `16 - i` zero bytes at position `ellipsis`),
and build the address with the zone attached. -/
def ipv6Finish (inp zone : String) (s : List Char) (i : Nat)
    (ellipsis : Option Nat) (ip : List Nat) : Except String Addr :=
  if s ≠ [] then
    .error (parseAddrErr inp "trailing garbage after address" (String.mk s))
  else if i < 16 then
    match ellipsis with
    | none => .error (parseAddrErr inp "address string too short" "")
    | some e =>
      .ok ((addrFrom16 (ip.take e ++ List.replicate (16 - i) 0 ++ ip.drop e)).withZone zone)
  else if ellipsis.isSome then
    .error (parseAddrErr inp "the :: must expand to at least one field of zeros" "")
  else
    .ok ((addrFrom16 ip).withZone zone)

/-- The outer loop of `parseIPv6`: `s` the remaining characters, `i` the
number of bytes already produced (in `ip`), `ellipsis` the byte position
of `::` if seen. `fuel` starts at `length s + 1`; each iteration
consumes at least one character of `s`, so fuel cannot run out. -/
def ipv6Loop (inp zone : String) :
    Nat → List Char → Nat → Option Nat → List Nat → Except String Addr
  | 0, _, _, _, _ =>
    .error (parseAddrErr inp "internal: ipv6 loop fuel exhausted (unreachable)" "")
  | fuel + 1, s, i, ellipsis, ip =>
    if i < 16 then
      match ipv6HexField inp s s 0 0 with
      | .error e => .error e
      | .ok (off, acc, after) =>
        if off = 0 then
          .error (parseAddrErr inp "each colon-separated field must have at least one digit" (String.mk s))
        else if after.headD ' ' = '.' ∧ after ≠ [] then
          -- embedded IPv4 suffix
          if ellipsis = none ∧ i ≠ 12 then
            .error (parseAddrErr inp
              "embedded IPv4 address must replace the final 2 fields of the address" (String.mk s))
          else if i + 4 > 16 then
            .error (parseAddrErr inp
              "too many hex fields to fit an embedded IPv4 at the end of the address" (String.mk s))
          else
            match parseIPv4Fields inp s none 0 0 [] with
            | .error e => .error e
            | .ok fields => ipv6Finish inp zone [] (i + 4) ellipsis (ip ++ fields)
        else
          let ip2 := ip ++ [acc / 256, acc % 256]
          let i2 := i + 2
          match after with
          | [] => ipv6Finish inp zone [] i2 ellipsis ip2
          | c :: rest =>
            if c ≠ ':' then
              .error (parseAddrErr inp "unexpected character, want colon" (String.mk (c :: rest)))
            else
              match rest with
              | [] =>
                .error (parseAddrErr inp "colon must be followed by more characters" (String.mk (c :: rest)))
              | c2 :: rest2 =>
                if c2 = ':' then
                  if ellipsis.isSome then
                    .error (parseAddrErr inp "multiple :: in address" (String.mk (c2 :: rest2)))
                  else
                    match rest2 with
                    | [] => ipv6Finish inp zone [] i2 (some i2) ip2
                    | _ => ipv6Loop inp zone fuel rest2 i2 (some i2) ip2
                else
                  ipv6Loop inp zone fuel (c2 :: rest2) i2 ellipsis ip2
    else
      ipv6Finish inp zone s i ellipsis ip

/-- The body of `parseIPv6` after the zone was split off: handle a
leading `::` (possibly the whole address), then run the field loop. -/
def parseIPv6Core (inp zone : String) (s : List Char) : Except String Addr :=
  match s with
  | ':' :: ':' :: rest =>
    if rest = [] then .ok (ipv6Unspecified.withZone zone)
    else ipv6Loop inp zone (rest.length + 1) rest 0 (some 0) []
  | _ => ipv6Loop inp zone (s.length + 1) s 0 none []

/-- `netip.parseIPv6`: split off the `%zone` suffix (an explicitly
present empty zone is an error), then parse the rest. -/
def parseIPv6 (inp : String) : Except String Addr :=
  let sAll := inp.data
  let sNoZone := sAll.takeWhile (· ≠ '%')
  match sAll.drop sNoZone.length with
  | _ :: zoneChars =>
    if zoneChars = [] then
      .error (parseAddrErr inp "zone must be a non-empty string" "")
    else
      parseIPv6Core inp (String.mk zoneChars) sNoZone
  | [] => parseIPv6Core inp "" sNoZone

/-- `netip.ParseAddr`: scan for the first `.`, `:` or `%` and dispatch
to the IPv4 or IPv6 parser accordingly. -/
def parseAddrScan (s : String) : List Char → Except String Addr
  | [] => .error (parseAddrErr s "unable to parse IP" "")
  | c :: rest =>
    if c = '.' then parseIPv4 s
    else if c = ':' then parseIPv6 s
    else if c = '%' then .error (parseAddrErr s "missing IPv6 address" "")
    else parseAddrScan s rest

/-- `netip.ParseAddr`. -/
def ParseAddr (s : String) : Except String Addr := parseAddrScan s s.data

deriving instance DecidableEq for Except

/-! ## `netip.Prefix` and `netip.ParsePrefix` -/

/-- `netip.Prefix`: an address and the prefix length stored as
`bitsPlusOne` (0 encodes the invalid / zero prefix, whose `Bits()` is
-1). -/
structure NetipPrefix where
  ip : Addr
  bitsPlusOne : Nat
deriving DecidableEq, Repr

/-- The zero `netip.Prefix{}`. -/
def NetipPrefix.zero : NetipPrefix := ⟨Addr.zero, 0⟩

/-- `netip.Prefix.Addr`. -/
def NetipPrefix.address (p : NetipPrefix) : Addr := p.ip

/-- `netip.Prefix.Bits`: the prefix length, -1 for an invalid prefix. -/
def NetipPrefix.bits (p : NetipPrefix) : Int := (p.bitsPlusOne : Int) - 1

/-- `netip.Prefix.IsValid`. -/
def NetipPrefix.isValid (p : NetipPrefix) : Bool := p.bitsPlusOne ≠ 0

/-- `netip.PrefixFrom`: keep `bits` when the address is valid and the
length is within the family's bit width, else produce the invalid
length; the zone is dropped. -/
def prefixFrom (ip : Addr) (bits : Int) : NetipPrefix :=
  if ip.isValid ∧ 0 ≤ bits ∧ bits ≤ (ip.bitLen : Int) then
    ⟨ip.withoutZone, bits.toNat + 1⟩
  else
    ⟨ip.withoutZone, 0⟩

/-- Go `strconv.Atoi` (= `ParseInt(s, 10, 0)` on a 64-bit platform):
optional sign, then decimal digits only, failing on empty digits,
non-digits, and int64 overflow. -/
def goAtoi (l : List Char) : Option Int :=
  if l = [] then none
  else
    let signDigits : Bool × List Char :=
      match l with
      | '+' :: r => (false, r)
      | '-' :: r => (true, r)
      | r => (false, r)
    let neg := signDigits.1
    let ds := signDigits.2
    if ds = [] ∨ ¬ ds.all (fun c => decide ('0' ≤ c) && decide (c ≤ '9')) then none
    else
      let n : Nat := ds.foldl (fun a c => a * 10 + (c.toNat - '0'.toNat)) 0
      if neg then
        if n ≤ 2 ^ 63 then some (-(n : Int)) else none
      else
        if n ≤ 2 ^ 63 - 1 then some (n : Int) else none

/-- Rendering of `netip.parsePrefixError.Error()`:
`netip.ParsePrefix("<in>"): <msg>`. -/
def parsePrefixErr (inp msg : String) : String :=
  "netip.ParsePrefix(" ++ goQuote inp ++ "): " ++ msg

/-- Index of the last occurrence of `c` in `l`
(`bytealg.LastIndexByteString`). -/
def lastIndexOfChar (l : List Char) (c : Char) : Option Nat :=
  match l.reverse.findIdx? (· = c) with
  | none => none
  | some j => some (l.length - 1 - j)

/-- `netip.ParsePrefix`: split at the last `/`, parse the address part
with `ParseAddr` (zones rejected), parse the length with
`strconv.Atoi`, and range-check it against the family's bit width. -/
def ParsePrefix (s : String) : Except String NetipPrefix :=
  match lastIndexOfChar s.data '/' with
  | none => .error (parsePrefixErr s "no \x27/\x27")
  | some i =>
    match ParseAddr (String.mk (s.data.take i)) with
    | .error e => .error (parsePrefixErr s e)
    | .ok ip =>
      if ip.zoneStr ≠ "" then
        .error (parsePrefixErr s "IPv6 zones cannot be present in a prefix")
      else
        let bitsStr := String.mk (s.data.drop (i + 1))
        match goAtoi bitsStr.data with
        | none => .error (parsePrefixErr s ("bad bits after slash: " ++ goQuote bitsStr))
        | some bits =>
          let maxBits : Int := if ip.is6 then 128 else 32
          if bits < 0 ∨ bits > maxBits then
            .error (parsePrefixErr s "prefix length out of range")
          else
            .ok (prefixFrom ip bits)

/-! ## `net.ParseMAC`

Translated from Go `net/mac.go`. A MAC address is returned as its byte
list (`net.HardwareAddr`); every failure yields the single
`&AddrError{Err: "invalid MAC address", Addr: s}` whose rendered text is
`address <s>: invalid MAC address`. -/

/-- Go `xtoi2(s, e)`: the first two characters of `s` as a hex byte; if
`s` is longer than two characters its third must equal `e` (`e = none`
models Go's zero byte, which never matches). -/
def xtoi2 (s : List Char) (e : Option Char) : Option Nat :=
  if 2 < s.length ∧ s.get? 2 ≠ e then none
  else
    match s with
    | c1 :: c2 :: _ =>
      match hexDigitVal c1, hexDigitVal c2 with
      | some h1, some h2 => some (h1 * 16 + h2)
      | _, _ => none
    | _ => none

/-- The colon/hyphen-form loop of `ParseMAC`: `n` groups of two hex
digits separated by `sep`, three characters consumed per group. -/
def macGroups2 (err : String) (sep : Char) :
    Nat → List Char → List Nat → Except String (List Nat)
  | 0, _, acc => .ok acc
  | n + 1, rem, acc =>
    match xtoi2 rem (some sep) with
    | none => .error err
    | some b => macGroups2 err sep n (rem.drop 3) (acc ++ [b])

/-- The dot-form loop of `ParseMAC`: `k` groups of four hex digits
(two bytes) separated by `.`, five characters consumed per group. -/
def macGroups4 (err : String) :
    Nat → List Char → List Nat → Except String (List Nat)
  | 0, _, acc => .ok acc
  | k + 1, rem, acc =>
    match xtoi2 (rem.take 2) none with
    | none => .error err
    | some b1 =>
      match xtoi2 (rem.drop 2) (some '.') with
      | none => .error err
      | some b2 => macGroups4 err k (rem.drop 5) (acc ++ [b1, b2])

/-- `net.ParseMAC`: accepts colon-, hyphen- or dot-delimited hex octet
groups of total 6, 8 or 20 bytes. -/
def ParseMAC (s : String) : Except String (List Nat) :=
  let l := s.data
  let err := "address " ++ s ++ ": invalid MAC address"
  if l.length < 14 then .error err
  else if l.get? 2 = some ':' ∨ l.get? 2 = some '-' then
    if (l.length + 1) % 3 ≠ 0 then .error err
    else
      let n := (l.length + 1) / 3
      if ¬ (n = 6 ∨ n = 8 ∨ n = 20) then .error err
      else macGroups2 err ((l.get? 2).getD ':') n l []
  else if l.get? 4 = some '.' then
    if (l.length + 1) % 5 ≠ 0 then .error err
    else
      let n := 2 * (l.length + 1) / 5
      if ¬ (n = 6 ∨ n = 8 ∨ n = 20) then .error err
      else macGroups4 err (n / 2) l []
  else .error err

/-! ## The framework value model

`basetypes.StringValue` is a three-state string: known, null or
unknown; `ValueString()` of a null or unknown value is `""`. Each
net-type wraps a `StringValue`. A `diag.Diagnostic` carries a summary
(title) and a detail (body); path/position attribution carried by the
host framework is not part of any compared text and is omitted. -/

/-- A three-state Terraform string value. -/
inductive StringValue where
  | known : String → StringValue
  | null : StringValue
  | unknown : StringValue
deriving DecidableEq, Repr

/-- `IsNull`. -/
def StringValue.isNull : StringValue → Bool
  | .null => true
  | _ => false

/-- `IsUnknown`. -/
def StringValue.isUnknown : StringValue → Bool
  | .unknown => true
  | _ => false

/-- `ValueString`: the known string, or `""` for null/unknown. -/
def StringValue.valueString : StringValue → String
  | .known s => s
  | _ => ""

/-- An error diagnostic: summary (title) and detail (body). -/
structure Diagnostic where
  summary : String
  detail : String
deriving DecidableEq, Repr

/-- `iptypes.IPAddress`. -/
structure IPAddress where
  stringValue : StringValue
deriving DecidableEq, Repr

/-- `iptypes.IPv4Address`. -/
structure IPv4Address where
  stringValue : StringValue
deriving DecidableEq, Repr

/-- `iptypes.IPv6Address`. -/
structure IPv6Address where
  stringValue : StringValue
deriving DecidableEq, Repr

/-- `cidrtypes.IPPrefix`. -/
structure IPPrefix where
  stringValue : StringValue
deriving DecidableEq, Repr

/-- `cidrtypes.IPv4Prefix`. -/
structure IPv4Prefix where
  stringValue : StringValue
deriving DecidableEq, Repr

/-- `cidrtypes.IPv6Prefix`. -/
structure IPv6Prefix where
  stringValue : StringValue
deriving DecidableEq, Repr

/-- `hwtypes.MACAddress`. -/
structure MACAddress where
  stringValue : StringValue
deriving DecidableEq, Repr

/-- The dynamic operand of `StringSemanticEquals`
(`basetypes.StringValuable`): one of the library's wrapper types, or a
plain `basetypes.StringValue`. -/
inductive StringValuable where
  | ipAddress : IPAddress → StringValuable
  | ipv4Address : IPv4Address → StringValuable
  | ipv6Address : IPv6Address → StringValuable
  | ipPrefix : IPPrefix → StringValuable
  | ipv4Prefix : IPv4Prefix → StringValuable
  | ipv6Prefix : IPv6Prefix → StringValuable
  | macAddress : MACAddress → StringValuable
  | stringValue : StringValue → StringValuable
deriving DecidableEq, Repr

/-- Go `fmt.Sprintf("%T", v)` on a `StringValuable`. -/
def StringValuable.goTypeName : StringValuable → String
  | .ipAddress _ => "iptypes.IPAddress"
  | .ipv4Address _ => "iptypes.IPv4Address"
  | .ipv6Address _ => "iptypes.IPv6Address"
  | .ipPrefix _ => "cidrtypes.IPPrefix"
  | .ipv4Prefix _ => "cidrtypes.IPv4Prefix"
  | .ipv6Prefix _ => "cidrtypes.IPv6Prefix"
  | .macAddress _ => "hwtypes.MACAddress"
  | .stringValue _ => "basetypes.StringValue"

/-- The diagnostic every `StringSemanticEquals` adds when the operand is
not of the receiver's wrapper type, naming both type names. -/
def semanticEqualityCheckErrorDiag (expected got : String) : Diagnostic :=
  ⟨"Semantic Equality Check Error",
    "An unexpected value type was received while performing semantic equality checks. " ++
      "Please report this to the provider developers.\n\n" ++
      "Expected Value Type: " ++ expected ++ "\n" ++
      "Got Value Type: " ++ got⟩

/-- The `netip.Addr` a comparator works with: `ParseAddr` with the error
discarded (`newIpAddr, _ := netip.ParseAddr(...)`), the zero `Addr` on
failure. -/
def addrOrZero (s : String) : Addr :=
  match ParseAddr s with
  | .ok a => a
  | .error _ => Addr.zero

/-- The `netip.Prefix` a comparator works with: `ParsePrefix` with the
error discarded, the zero `Prefix` on failure. -/
def prefixOrZero (s : String) : NetipPrefix :=
  match ParsePrefix s with
  | .ok p => p
  | .error _ => NetipPrefix.zero

/-- The `net.HardwareAddr` a comparator works with: `ParseMAC` with the
error discarded, nil (here `[]`) on failure. -/
def macOrNil (s : String) : List Nat :=
  match ParseMAC s with
  | .ok b => b
  | .error _ => []

/-! ## Semantic-equality comparators (`StringSemanticEquals`) -/

/-- `iptypes.IPAddress.StringSemanticEquals`: type-check the operand,
then compare the two `netip.ParseAddr` results (errors ignored). -/
def IPAddress.stringSemanticEquals (v : IPAddress) (o : StringValuable) :
    Bool × List Diagnostic :=
  match o with
  | .ipAddress w =>
    (decide (addrOrZero v.stringValue.valueString = addrOrZero w.stringValue.valueString), [])
  | _ => (false, [semanticEqualityCheckErrorDiag "iptypes.IPAddress" o.goTypeName])

/-- `iptypes.IPv6Address.StringSemanticEquals`: same comparison,
operand must be an `IPv6Address`. -/
def IPv6Address.stringSemanticEquals (v : IPv6Address) (o : StringValuable) :
    Bool × List Diagnostic :=
  match o with
  | .ipv6Address w =>
    (decide (addrOrZero v.stringValue.valueString = addrOrZero w.stringValue.valueString), [])
  | _ => (false, [semanticEqualityCheckErrorDiag "iptypes.IPv6Address" o.goTypeName])

/-- `cidrtypes.IPPrefix.StringSemanticEquals`: type-check the operand,
then compare `(Prefix).Addr()` and `(Prefix).Bits()` of the two
`netip.ParsePrefix` results (errors ignored). -/
def IPPrefix.stringSemanticEquals (v : IPPrefix) (o : StringValuable) :
    Bool × List Diagnostic :=
  match o with
  | .ipPrefix w =>
    let currentIpPrefix := prefixOrZero v.stringValue.valueString
    let newIpPrefix := prefixOrZero w.stringValue.valueString
    (decide (currentIpPrefix.address = newIpPrefix.address ∧
      currentIpPrefix.bits = newIpPrefix.bits), [])
  | _ => (false, [semanticEqualityCheckErrorDiag "cidrtypes.IPPrefix" o.goTypeName])

/-- `hwtypes.MACAddress.StringSemanticEquals`: type-check the operand,
then `bytes.Equal` the two `net.ParseMAC` results (errors ignored). -/
def MACAddress.stringSemanticEquals (v : MACAddress) (o : StringValuable) :
    Bool × List Diagnostic :=
  match o with
  | .macAddress w =>
    (decide (macOrNil v.stringValue.valueString = macOrNil w.stringValue.valueString), [])
  | _ => (false, [semanticEqualityCheckErrorDiag "hwtypes.MACAddress" o.goTypeName])

/-! ## Attribute validators (`ValidateAttribute`)

Each returns the list of diagnostics added to the response. Null and
unknown values return immediately with no diagnostics. -/

/-- `iptypes.IPAddress.ValidateAttribute` (union kind: either family). -/
def IPAddress.validateAttribute (v : IPAddress) : List Diagnostic :=
  if v.stringValue.isUnknown ∨ v.stringValue.isNull then []
  else
    match ParseAddr v.stringValue.valueString with
    | .error err =>
      [⟨"Invalid IP Address String Value",
        "A string value was provided that is not valid IPv4 or IPv6 string format (RFC 791, RFC 4291).\n\n" ++
          "Given Value: " ++ v.stringValue.valueString ++ "\n" ++
          "Error: " ++ err⟩]
    | .ok ipAddr =>
      if ¬ ipAddr.isValid then
        [⟨"Invalid IP Address String Value",
          "A string value was provided that is not valid IPv4 or IPv6 string format (RFC 791, RFC 4291).\n\n" ++
            "Given Value: " ++ v.stringValue.valueString ++ "\n"⟩]
      else []

/-- `iptypes.IPv4Address.ValidateAttribute`: structural parse, then the
`Is6` family check, then the `!IsValid() || !Is4()` fallback. -/
def IPv4Address.validateAttribute (v : IPv4Address) : List Diagnostic :=
  if v.stringValue.isUnknown ∨ v.stringValue.isNull then []
  else
    match ParseAddr v.stringValue.valueString with
    | .error err =>
      [⟨"Invalid IPv4 Address String Value",
        "A string value was provided that is not valid IPv4 string format.\n\n" ++
          "Given Value: " ++ v.stringValue.valueString ++ "\n" ++
          "Error: " ++ err⟩]
    | .ok ipAddr =>
      if ipAddr.is6 then
        [⟨"Invalid IPv4 Address String Value",
          "An IPv6 string format was provided, string value must be IPv4 format.\n\n" ++
            "Given Value: " ++ v.stringValue.valueString ++ "\n"⟩]
      else if ¬ ipAddr.isValid ∨ ¬ ipAddr.is4 then
        [⟨"Invalid IPv4 Address String Value",
          "A string value was provided that is not valid IPv4 string format.\n\n" ++
            "Given Value: " ++ v.stringValue.valueString ++ "\n"⟩]
      else []

/-- `iptypes.IPv6Address.ValidateAttribute`: structural parse, then the
`Is4` family check, then the `!IsValid() || !Is6()` fallback. -/
def IPv6Address.validateAttribute (v : IPv6Address) : List Diagnostic :=
  if v.stringValue.isUnknown ∨ v.stringValue.isNull then []
  else
    match ParseAddr v.stringValue.valueString with
    | .error err =>
      [⟨"Invalid IPv6 Address String Value",
        "A string value was provided that is not valid IPv6 string format (RFC 4291).\n\n" ++
          "Given Value: " ++ v.stringValue.valueString ++ "\n" ++
          "Error: " ++ err⟩]
    | .ok ipAddr =>
      if ipAddr.is4 then
        [⟨"Invalid IPv6 Address String Value",
          "An IPv4 string format was provided, string value must be IPv6 string format or IPv4-Mapped IPv6 string format (RFC 4291).\n\n" ++
            "Given Value: " ++ v.stringValue.valueString ++ "\n"⟩]
      else if ¬ ipAddr.isValid ∨ ¬ ipAddr.is6 then
        [⟨"Invalid IPv6 Address String Value",
          "A string value was provided that is not valid IPv6 string format (RFC 4291).\n\n" ++
            "Given Value: " ++ v.stringValue.valueString ++ "\n"⟩]
      else []

/-- `cidrtypes.IPPrefix.ValidateAttribute` (union kind: either family). -/
def IPPrefix.validateAttribute (v : IPPrefix) : List Diagnostic :=
  if v.stringValue.isUnknown ∨ v.stringValue.isNull then []
  else
    match ParsePrefix v.stringValue.valueString with
    | .error err =>
      [⟨"Invalid IP CIDR String Value",
        "A string value was provided that is not valid IPv4 or IPv6 CIDR string format (RFC 4632, RFC 4291).\n\n" ++
          "Given Value: " ++ v.stringValue.valueString ++ "\n" ++
          "Error: " ++ err⟩]
    | .ok ipPrefix =>
      if ¬ ipPrefix.isValid then
        [⟨"Invalid IP CIDR String Value",
          "A string value was provided that is not valid IPv4 or IPv6 CIDR string format (RFC 4632, RFC 4291).\n\n" ++
            "Given Value: " ++ v.stringValue.valueString ++ "\n"⟩]
      else []

/-- `cidrtypes.IPv4Prefix.ValidateAttribute`: structural parse, then the
`Addr().Is6()` family check, then the `!IsValid() || !Addr().Is4()`
fallback. -/
def IPv4Prefix.validateAttribute (v : IPv4Prefix) : List Diagnostic :=
  if v.stringValue.isUnknown ∨ v.stringValue.isNull then []
  else
    match ParsePrefix v.stringValue.valueString with
    | .error err =>
      [⟨"Invalid IPv4 CIDR String Value",
        "A string value was provided that is not valid IPv4 CIDR string format (RFC 4632).\n\n" ++
          "Given Value: " ++ v.stringValue.valueString ++ "\n" ++
          "Error: " ++ err⟩]
    | .ok ipPrefix =>
      if ipPrefix.address.is6 then
        [⟨"Invalid IPv4 CIDR String Value",
          "An IPv6 CIDR string format was provided, string value must be IPv4 CIDR string format (RFC 4632).\n\n" ++
            "Given Value: " ++ v.stringValue.valueString ++ "\n"⟩]
      else if ¬ ipPrefix.isValid ∨ ¬ ipPrefix.address.is4 then
        [⟨"Invalid IPv4 CIDR String Value",
          "A string value was provided that is not valid IPv4 CIDR string format (RFC 4632).\n\n" ++
            "Given Value: " ++ v.stringValue.valueString ++ "\n"⟩]
      else []

/-- Modelled from the spec: `cidrtypes.IPv6Prefix.ValidateAttribute`
(the file `ipv6_prefix_value.go` is not among the repository files
available here; only its type, tests and examples are). Per spec §4.2
it mirrors the IPv4 prefix validator with the families swapped, using
the message texts its tests pin: title `Invalid IPv6 CIDR String
Value`, structural template citing RFC 4291, and the distinct
family-mismatch message for an IPv4 CIDR. -/
def IPv6Prefix.validateAttribute (v : IPv6Prefix) : List Diagnostic :=
  if v.stringValue.isUnknown ∨ v.stringValue.isNull then []
  else
    match ParsePrefix v.stringValue.valueString with
    | .error err =>
      [⟨"Invalid IPv6 CIDR String Value",
        "A string value was provided that is not valid IPv6 CIDR string format (RFC 4291).\n\n" ++
          "Given Value: " ++ v.stringValue.valueString ++ "\n" ++
          "Error: " ++ err⟩]
    | .ok ipPrefix =>
      if ipPrefix.address.is4 then
        [⟨"Invalid IPv6 CIDR String Value",
          "An IPv4 CIDR string format was provided, string value must be IPv6 CIDR string format (RFC 4291).\n\n" ++
            "Given Value: " ++ v.stringValue.valueString ++ "\n"⟩]
      else if ¬ ipPrefix.isValid ∨ ¬ ipPrefix.address.is6 then
        [⟨"Invalid IPv6 CIDR String Value",
          "A string value was provided that is not valid IPv6 CIDR string format (RFC 4291).\n\n" ++
            "Given Value: " ++ v.stringValue.valueString ++ "\n"⟩]
      else []

/-- `hwtypes.MACAddress.ValidateAttribute`: structural parse only (no
family concept). -/
def MACAddress.validateAttribute (v : MACAddress) : List Diagnostic :=
  if v.stringValue.isUnknown ∨ v.stringValue.isNull then []
  else
    match ParseMAC v.stringValue.valueString with
    | .error err =>
      [⟨"Invalid MAC Address String Value",
        "A string value was provided that is not valid MAC string format.\n\n" ++
          "Given Value: " ++ v.stringValue.valueString ++ "\n" ++
          "Error: " ++ err⟩]
    | .ok _ => []

/-! ## Parameter validators (`ValidateParameter`)

Each returns the `function.NewArgumentFuncError` text set on the
response, or `none` when no error is set. Null and unknown values
return immediately with no error. -/

/-- `iptypes.IPAddress.ValidateParameter`. -/
def IPAddress.validateParameter (v : IPAddress) : Option String :=
  if v.stringValue.isUnknown ∨ v.stringValue.isNull then none
  else
    match ParseAddr v.stringValue.valueString with
    | .error err =>
      some ("Invalid IP Address String Value: " ++
        "A string value was provided that is not valid IPv4 or IPv6 string format (RFC 791, RFC 4291).\n\n" ++
        "Given Value: " ++ v.stringValue.valueString ++ "\n" ++
        "Error: " ++ err)
    | .ok ipAddr =>
      if ¬ ipAddr.isValid then
        some ("Invalid IP Address String Value: " ++
          "A string value was provided that is not valid IPv4 or IPv6 string format (RFC 791, RFC 4291).\n\n" ++
          "Given Value: " ++ v.stringValue.valueString ++ "\n")
      else none

/-- `iptypes.IPv4Address.ValidateParameter`. -/
def IPv4Address.validateParameter (v : IPv4Address) : Option String :=
  if v.stringValue.isUnknown ∨ v.stringValue.isNull then none
  else
    match ParseAddr v.stringValue.valueString with
    | .error err =>
      some ("Invalid IPv4 Address String Value: " ++
        "A string value was provided that is not valid IPv4 string format.\n\n" ++
        "Given Value: " ++ v.stringValue.valueString ++ "\n" ++
        "Error: " ++ err)
    | .ok ipAddr =>
      if ipAddr.is6 then
        some ("Invalid IPv4 Address String Value: " ++
          "An IPv6 string format was provided, string value must be IPv4 format.\n\n" ++
          "Given Value: " ++ v.stringValue.valueString ++ "\n")
      else if ¬ ipAddr.isValid ∨ ¬ ipAddr.is4 then
        some ("Invalid IPv4 Address String Value: " ++
          "A string value was provided that is not valid IPv4 string format.\n\n" ++
          "Given Value: " ++ v.stringValue.valueString ++ "\n")
      else none

/-- `iptypes.IPv6Address.ValidateParameter`. -/
def IPv6Address.validateParameter (v : IPv6Address) : Option String :=
  if v.stringValue.isUnknown ∨ v.stringValue.isNull then none
  else
    match ParseAddr v.stringValue.valueString with
    | .error err =>
      some ("Invalid IPv6 Address String Value: " ++
        "A string value was provided that is not valid IPv6 string format (RFC 4291).\n\n" ++
        "Given Value: " ++ v.stringValue.valueString ++ "\n" ++
        "Error: " ++ err)
    | .ok ipAddr =>
      if ipAddr.is4 then
        some ("Invalid IPv6 Address String Value: " ++
          "An IPv4 string format was provided, string value must be IPv6 string format or IPv4-Mapped IPv6 string format (RFC 4291).\n\n" ++
          "Given Value: " ++ v.stringValue.valueString ++ "\n")
      else if ¬ ipAddr.isValid ∨ ¬ ipAddr.is6 then
        some ("Invalid IPv6 Address String Value: " ++
          "A string value was provided that is not valid IPv6 string format (RFC 4291).\n\n" ++
          "Given Value: " ++ v.stringValue.valueString ++ "\n")
      else none

/-- `cidrtypes.IPPrefix.ValidateParameter`. -/
def IPPrefix.validateParameter (v : IPPrefix) : Option String :=
  if v.stringValue.isUnknown ∨ v.stringValue.isNull then none
  else
    match ParsePrefix v.stringValue.valueString with
    | .error err =>
      some ("Invalid IP CIDR String Value: " ++
        "A string value was provided that is not valid IPv4 or IPv6 CIDR string format (RFC 4632, RFC 4291).\n\n" ++
        "Given Value: " ++ v.stringValue.valueString ++ "\n" ++
        "Error: " ++ err)
    | .ok ipPrefix =>
      if ¬ ipPrefix.isValid then
        some ("Invalid IP CIDR String Value: " ++
          "A string value was provided that is not valid IPv4 or IPv6 CIDR string format (RFC 4632, RFC 4291).\n\n" ++
          "Given Value: " ++ v.stringValue.valueString ++ "\n")
      else none

/-- `cidrtypes.IPv4Prefix.ValidateParameter`. -/
def IPv4Prefix.validateParameter (v : IPv4Prefix) : Option String :=
  if v.stringValue.isUnknown ∨ v.stringValue.isNull then none
  else
    match ParsePrefix v.stringValue.valueString with
    | .error err =>
      some ("Invalid IPv4 CIDR String Value: " ++
        "A string value was provided that is not valid IPv4 CIDR string format (RFC 4632).\n\n" ++
        "Given Value: " ++ v.stringValue.valueString ++ "\n" ++
        "Error: " ++ err)
    | .ok ipPrefix =>
      if ipPrefix.address.is6 then
        some ("Invalid IPv4 CIDR String Value: " ++
          "An IPv6 CIDR string format was provided, string value must be IPv4 CIDR string format (RFC 4632).\n\n" ++
          "Given Value: " ++ v.stringValue.valueString ++ "\n")
      else if ¬ ipPrefix.isValid ∨ ¬ ipPrefix.address.is4 then
        some ("Invalid IPv4 CIDR String Value: " ++
          "A string value was provided that is not valid IPv4 CIDR string format (RFC 4632).\n\n" ++
          "Given Value: " ++ v.stringValue.valueString ++ "\n")
      else none

/-- Modelled from the spec: `cidrtypes.IPv6Prefix.ValidateParameter`
(file not among the repository files available here); mirrors the IPv4
prefix parameter validator with the families swapped, with the message
texts its tests pin. -/
def IPv6Prefix.validateParameter (v : IPv6Prefix) : Option String :=
  if v.stringValue.isUnknown ∨ v.stringValue.isNull then none
  else
    match ParsePrefix v.stringValue.valueString with
    | .error err =>
      some ("Invalid IPv6 CIDR String Value: " ++
        "A string value was provided that is not valid IPv6 CIDR string format (RFC 4291).\n\n" ++
        "Given Value: " ++ v.stringValue.valueString ++ "\n" ++
        "Error: " ++ err)
    | .ok ipPrefix =>
      if ipPrefix.address.is4 then
        some ("Invalid IPv6 CIDR String Value: " ++
          "An IPv4 CIDR string format was provided, string value must be IPv6 CIDR string format (RFC 4291).\n\n" ++
          "Given Value: " ++ v.stringValue.valueString ++ "\n")
      else if ¬ ipPrefix.isValid ∨ ¬ ipPrefix.address.is6 then
        some ("Invalid IPv6 CIDR String Value: " ++
          "A string value was provided that is not valid IPv6 CIDR string format (RFC 4291).\n\n" ++
          "Given Value: " ++ v.stringValue.valueString ++ "\n")
      else none

/-- `hwtypes.MACAddress.ValidateParameter`. -/
def MACAddress.validateParameter (v : MACAddress) : Option String :=
  if v.stringValue.isUnknown ∨ v.stringValue.isNull then none
  else
    match ParseMAC v.stringValue.valueString with
    | .error err =>
      some ("Invalid MAC Address String Value: " ++
        "A string value was provided that is not valid MAC string format.\n\n" ++
        "Given Value: " ++ v.stringValue.valueString ++ "\n" ++
        "Error: " ++ err)
    | .ok _ => none

/-! ## Typed accessors (`Value<Kind>`)

Each returns the structured value and the diagnostics: null and
unknown values produce one error diagnostic each with state-specific
text; a known string that fails to parse produces one error diagnostic
whose detail is the raw parser error text. -/

/-- `iptypes.IPAddress.ValueIPAddress`. -/
def IPAddress.valueIPAddress (v : IPAddress) : Addr × List Diagnostic :=
  if v.stringValue.isNull then
    (Addr.zero, [⟨"IPAddress ValueIPAddress Error", "IP address string value is null"⟩])
  else if v.stringValue.isUnknown then
    (Addr.zero, [⟨"IPAddress ValueIPAddress Error", "IP address string value is unknown"⟩])
  else
    match ParseAddr v.stringValue.valueString with
    | .error err => (Addr.zero, [⟨"IPAddress ValueIPAddress Error", err⟩])
    | .ok ipAddr => (ipAddr, [])

/-- `iptypes.IPv4Address.ValueIPv4Address`. -/
def IPv4Address.valueIPv4Address (v : IPv4Address) : Addr × List Diagnostic :=
  if v.stringValue.isNull then
    (Addr.zero, [⟨"IPv4Address ValueIPv4Address Error", "IPv4 address string value is null"⟩])
  else if v.stringValue.isUnknown then
    (Addr.zero, [⟨"IPv4Address ValueIPv4Address Error", "IPv4 address string value is unknown"⟩])
  else
    match ParseAddr v.stringValue.valueString with
    | .error err => (Addr.zero, [⟨"IPv4Address ValueIPv4Address Error", err⟩])
    | .ok ipAddr => (ipAddr, [])

/-- `iptypes.IPv6Address.ValueIPv6Address`. -/
def IPv6Address.valueIPv6Address (v : IPv6Address) : Addr × List Diagnostic :=
  if v.stringValue.isNull then
    (Addr.zero, [⟨"IPv6Address ValueIPv6Address Error", "IPv6 address string value is null"⟩])
  else if v.stringValue.isUnknown then
    (Addr.zero, [⟨"IPv6Address ValueIPv6Address Error", "IPv6 address string value is unknown"⟩])
  else
    match ParseAddr v.stringValue.valueString with
    | .error err => (Addr.zero, [⟨"IPv6Address ValueIPv6Address Error", err⟩])
    | .ok ipAddr => (ipAddr, [])

/-- `cidrtypes.IPPrefix.ValueIPPrefix`. -/
def IPPrefix.valueIPPrefix (v : IPPrefix) : NetipPrefix × List Diagnostic :=
  if v.stringValue.isNull then
    (NetipPrefix.zero, [⟨"IPPrefix ValueIPPrefix Error", "IP CIDR string value is null"⟩])
  else if v.stringValue.isUnknown then
    (NetipPrefix.zero, [⟨"IPPrefix ValueIPPrefix Error", "IP CIDR string value is unknown"⟩])
  else
    match ParsePrefix v.stringValue.valueString with
    | .error err => (NetipPrefix.zero, [⟨"IPPrefix ValueIPPrefix Error", err⟩])
    | .ok p => (p, [])

/-- `cidrtypes.IPv4Prefix.ValueIPv4Prefix`. -/
def IPv4Prefix.valueIPv4Prefix (v : IPv4Prefix) : NetipPrefix × List Diagnostic :=
  if v.stringValue.isNull then
    (NetipPrefix.zero, [⟨"IPv4Prefix ValueIPv4Prefix Error", "IPv4 CIDR string value is null"⟩])
  else if v.stringValue.isUnknown then
    (NetipPrefix.zero, [⟨"IPv4Prefix ValueIPv4Prefix Error", "IPv4 CIDR string value is unknown"⟩])
  else
    match ParsePrefix v.stringValue.valueString with
    | .error err => (NetipPrefix.zero, [⟨"IPv4Prefix ValueIPv4Prefix Error", err⟩])
    | .ok p => (p, [])

/-- Modelled from the spec: `cidrtypes.IPv6Prefix.ValueIPv6Prefix`
(file not among the repository files available here). Per spec §4.4
and the texts its tests pin: state-specific diagnostics `IPv6 CIDR
string value is null` / `... is unknown` under the title `IPv6Prefix
ValueIPv6Prefix Error`, and the raw parse error for a known invalid
string. -/
def IPv6Prefix.valueIPv6Prefix (v : IPv6Prefix) : NetipPrefix × List Diagnostic :=
  if v.stringValue.isNull then
    (NetipPrefix.zero, [⟨"IPv6Prefix ValueIPv6Prefix Error", "IPv6 CIDR string value is null"⟩])
  else if v.stringValue.isUnknown then
    (NetipPrefix.zero, [⟨"IPv6Prefix ValueIPv6Prefix Error", "IPv6 CIDR string value is unknown"⟩])
  else
    match ParsePrefix v.stringValue.valueString with
    | .error err => (NetipPrefix.zero, [⟨"IPv6Prefix ValueIPv6Prefix Error", err⟩])
    | .ok p => (p, [])

/-- `hwtypes.MACAddress.ValueMACAddress` (nil hardware address modelled
as `[]`). -/
def MACAddress.valueMACAddress (v : MACAddress) : List Nat × List Diagnostic :=
  if v.stringValue.isNull then
    ([], [⟨"MACAddress ValueMACAddress Error", "MAC address string value is null"⟩])
  else if v.stringValue.isUnknown then
    ([], [⟨"MACAddress ValueMACAddress Error", "MAC address string value is unknown"⟩])
  else
    match ParseMAC v.stringValue.valueString with
    | .error err => ([], [⟨"MACAddress ValueMACAddress Error", err⟩])
    | .ok macAddr => (macAddr, [])

/-! ## Supporting lemmas

Families of successfully parsed values, evaluation of the validators on
known strings, and inequality of the family-mismatch and structural
parse-failure diagnostics. -/

lemma family_of_z4 {a : Addr} (h : a.z = .z4) :
    a.isValid = true ∧ a.is4 = true ∧ a.is6 = false := by
  simp [Addr.isValid, Addr.is4, Addr.is6, h]

lemma family_of_z6 {a : Addr} {zn : String} (h : a.z = .z6 zn) :
    a.isValid = true ∧ a.is4 = false ∧ a.is6 = true := by
  simp [Addr.isValid, Addr.is4, Addr.is6, h]

lemma parseIPv4_ok {s : String} {a : Addr} (h : parseIPv4 s = .ok a) : a.z = .z4 := by
  unfold parseIPv4 at h
  cases hh : parseIPv4Fields s s.data none 0 0 [] with
  | error e => rw [hh] at h; cases h
  | ok fields => rw [hh] at h; cases h; rfl

lemma withZone_addrFrom16 (l : List Nat) (zone : String) :
    (addrFrom16 l).withZone zone = ⟨beBytesToNat l, .z6 zone⟩ := rfl

lemma ipv6Finish_ok {inp zone : String} {s : List Char} {i : Nat}
    {ell : Option Nat} {ip : List Nat} {a : Addr}
    (h : ipv6Finish inp zone s i ell ip = .ok a) : ∃ zn, a.z = .z6 zn := by
  unfold ipv6Finish at h
  split at h
  · cases h
  · split at h
    · split at h
      · cases h
      · cases h; exact ⟨zone, rfl⟩
    · split at h
      · cases h
      · cases h; exact ⟨zone, rfl⟩

lemma ipv6Loop_ok {inp zone : String} :
    ∀ (fuel : Nat) (s : List Char) (i : Nat) (ell : Option Nat) (ip : List Nat) (a : Addr),
      ipv6Loop inp zone fuel s i ell ip = .ok a → ∃ zn, a.z = .z6 zn := by
  intro fuel
  induction fuel with
  | zero =>
    intro s i ell ip a h
    simp [ipv6Loop] at h
  | succ n ih =>
    intro s i ell ip a h
    rw [ipv6Loop] at h
    repeat' split at h
    all_goals
      first
        | cases h
        | exact ipv6Finish_ok h
        | exact ih _ _ _ _ _ h

lemma parseIPv6Core_ok {inp zone : String} {s : List Char} {a : Addr}
    (h : parseIPv6Core inp zone s = .ok a) : ∃ zn, a.z = .z6 zn := by
  unfold parseIPv6Core at h
  split at h
  · split at h
    · cases h; exact ⟨zone, rfl⟩
    · exact ipv6Loop_ok _ _ _ _ _ _ h
  · exact ipv6Loop_ok _ _ _ _ _ _ h

lemma parseIPv6_ok {s : String} {a : Addr} (h : parseIPv6 s = .ok a) : ∃ zn, a.z = .z6 zn := by
  unfold parseIPv6 at h
  simp only [] at h
  split at h
  · split at h
    · cases h
    · exact parseIPv6Core_ok h
  · exact parseIPv6Core_ok h

lemma parseAddrScan_ok {s : String} :
    ∀ (l : List Char) {a : Addr}, parseAddrScan s l = .ok a →
      a.z = .z4 ∨ ∃ zn, a.z = .z6 zn := by
  intro l
  induction l with
  | nil => intro a h; cases h
  | cons c rest ih =>
    intro a h
    rw [parseAddrScan] at h
    split at h
    · exact .inl (parseIPv4_ok h)
    · split at h
      · exact .inr (parseIPv6_ok h)
      · split at h
        · cases h
        · exact ih h

lemma ParseAddr_ok {s : String} {a : Addr} (h : ParseAddr s = .ok a) :
    a.z = .z4 ∨ ∃ zn, a.z = .z6 zn :=
  parseAddrScan_ok _ h

lemma ParseAddr_ok_family {s : String} {a : Addr} (h : ParseAddr s = .ok a) :
    a.isValid = true ∧ (a.is4 = true ∧ a.is6 = false ∨ a.is4 = false ∧ a.is6 = true) := by
  rcases ParseAddr_ok h with h4 | ⟨zn, h6⟩
  · obtain ⟨hv, h1, h2⟩ := family_of_z4 h4
    exact ⟨hv, .inl ⟨h1, h2⟩⟩
  · obtain ⟨hv, h1, h2⟩ := family_of_z6 h6
    exact ⟨hv, .inr ⟨h1, h2⟩⟩

lemma withoutZone_family (a : Addr) :
    a.withoutZone.is4 = a.is4 ∧ a.withoutZone.is6 = a.is6 ∧ a.withoutZone.isValid = a.isValid := by
  obtain ⟨n, z⟩ := a
  cases z <;> simp [Addr.withoutZone, Addr.is4, Addr.is6, Addr.isValid]

lemma is4_z {a : Addr} (h : a.is4 = true) : a.z = .z4 := by
  simpa [Addr.is4] using h

lemma maxBits_eq_bitLen {ip : Addr} (hv : ip.isValid = true) :
    (if ip.is6 = true then (128 : Int) else 32) = (ip.bitLen : Int) := by
  obtain ⟨n, z⟩ := ip
  cases z <;> simp_all [Addr.is6, Addr.isValid, Addr.bitLen]

lemma prefixFrom_inrange {ip : Addr} {bits : Int}
    (hv : ip.isValid = true) (h0 : 0 ≤ bits) (hb : bits ≤ (ip.bitLen : Int)) :
    prefixFrom ip bits = ⟨ip.withoutZone, bits.toNat + 1⟩ := by
  rw [prefixFrom, if_pos ⟨hv, h0, hb⟩]

lemma ParsePrefix_ok_shape {s : String} {p : NetipPrefix} (h : ParsePrefix s = .ok p) :
    ∃ ip bits, ParseAddr (String.mk (s.data.take ((lastIndexOfChar s.data '/').getD 0))) = .ok ip ∧
      ip.isValid = true ∧ 0 ≤ bits ∧ bits ≤ (ip.bitLen : Int) ∧
      p = ⟨ip.withoutZone, bits.toNat + 1⟩ := by
  unfold ParsePrefix at h
  split at h
  · cases h
  · rename_i i hi
    split at h
    · cases h
    · rename_i ip hip
      split at h
      · cases h
      · simp only [] at h
        split at h
        · cases h
        · rename_i bits hbits
          have hv : ip.isValid = true := (ParseAddr_ok_family hip).1
          rw [maxBits_eq_bitLen hv] at h
          split at h
          · cases h
          · rename_i hrange
            push_neg at hrange
            cases h
            refine ⟨ip, bits, ?_, hv, by omega, by omega, ?_⟩
            · simpa [hi] using hip
            · exact prefixFrom_inrange hv (by omega) (by omega)

lemma ParsePrefix_ok_facts {s : String} {p : NetipPrefix} (h : ParsePrefix s = .ok p) :
    p.isValid = true ∧ p.address.isValid = true ∧
      (p.address.is4 = true ∧ p.address.is6 = false ∨
        p.address.is4 = false ∧ p.address.is6 = true) := by
  obtain ⟨ip, bits, hip, hv, _, _, hp⟩ := ParsePrefix_ok_shape h
  obtain ⟨w4, w6, wv⟩ := withoutZone_family ip
  subst hp
  refine ⟨by simp [NetipPrefix.isValid], ?_, ?_⟩
  · simpa [NetipPrefix.address, wv] using hv
  · rcases (ParseAddr_ok_family hip).2 with ⟨h4, h6⟩ | ⟨h4, h6⟩
    · exact .inl ⟨by simp [NetipPrefix.address, w4, h4], by simp [NetipPrefix.address, w6, h6]⟩
    · exact .inr ⟨by simp [NetipPrefix.address, w4, h4], by simp [NetipPrefix.address, w6, h6]⟩

/-- The structural parse-failure diagnostic of `IPAddress.ValidateAttribute`. -/
def ipAddressParseFailure (s e : String) : Diagnostic :=
  ⟨"Invalid IP Address String Value",
    "A string value was provided that is not valid IPv4 or IPv6 string format (RFC 791, RFC 4291).\n\n" ++
      "Given Value: " ++ s ++ "\n" ++
      "Error: " ++ e⟩

/-- The structural parse-failure diagnostic of `IPv4Address.ValidateAttribute`. -/
def ipv4AddressParseFailure (s e : String) : Diagnostic :=
  ⟨"Invalid IPv4 Address String Value",
    "A string value was provided that is not valid IPv4 string format.\n\n" ++
      "Given Value: " ++ s ++ "\n" ++
      "Error: " ++ e⟩

/-- The family-mismatch diagnostic of `IPv4Address.ValidateAttribute`. -/
def ipv4AddressFamilyMismatch (s : String) : Diagnostic :=
  ⟨"Invalid IPv4 Address String Value",
    "An IPv6 string format was provided, string value must be IPv4 format.\n\n" ++
      "Given Value: " ++ s ++ "\n"⟩

/-- The structural parse-failure diagnostic of `IPv6Address.ValidateAttribute`. -/
def ipv6AddressParseFailure (s e : String) : Diagnostic :=
  ⟨"Invalid IPv6 Address String Value",
    "A string value was provided that is not valid IPv6 string format (RFC 4291).\n\n" ++
      "Given Value: " ++ s ++ "\n" ++
      "Error: " ++ e⟩

/-- The family-mismatch diagnostic of `IPv6Address.ValidateAttribute`. -/
def ipv6AddressFamilyMismatch (s : String) : Diagnostic :=
  ⟨"Invalid IPv6 Address String Value",
    "An IPv4 string format was provided, string value must be IPv6 string format or IPv4-Mapped IPv6 string format (RFC 4291).\n\n" ++
      "Given Value: " ++ s ++ "\n"⟩

/-- The structural parse-failure diagnostic of `IPPrefix.ValidateAttribute`. -/
def ipPrefixParseFailure (s e : String) : Diagnostic :=
  ⟨"Invalid IP CIDR String Value",
    "A string value was provided that is not valid IPv4 or IPv6 CIDR string format (RFC 4632, RFC 4291).\n\n" ++
      "Given Value: " ++ s ++ "\n" ++
      "Error: " ++ e⟩

/-- The structural parse-failure diagnostic of `IPv4Prefix.ValidateAttribute`. -/
def ipv4PrefixParseFailure (s e : String) : Diagnostic :=
  ⟨"Invalid IPv4 CIDR String Value",
    "A string value was provided that is not valid IPv4 CIDR string format (RFC 4632).\n\n" ++
      "Given Value: " ++ s ++ "\n" ++
      "Error: " ++ e⟩

/-- The family-mismatch diagnostic of `IPv4Prefix.ValidateAttribute`. -/
def ipv4PrefixFamilyMismatch (s : String) : Diagnostic :=
  ⟨"Invalid IPv4 CIDR String Value",
    "An IPv6 CIDR string format was provided, string value must be IPv4 CIDR string format (RFC 4632).\n\n" ++
      "Given Value: " ++ s ++ "\n"⟩

/-- The structural parse-failure diagnostic of `MACAddress.ValidateAttribute`. -/
def macAddressParseFailure (s e : String) : Diagnostic :=
  ⟨"Invalid MAC Address String Value",
    "A string value was provided that is not valid MAC string format.\n\n" ++
      "Given Value: " ++ s ++ "\n" ++
      "Error: " ++ e⟩

lemma IPAddress_validate_err {s e : String} (h : ParseAddr s = .error e) :
    IPAddress.validateAttribute ⟨.known s⟩ = [ipAddressParseFailure s e] := by
  simp [IPAddress.validateAttribute, StringValue.isUnknown, StringValue.isNull,
    StringValue.valueString, h, ipAddressParseFailure]

lemma IPAddress_validate_ok {s : String} {a : Addr} (h : ParseAddr s = .ok a) :
    IPAddress.validateAttribute ⟨.known s⟩ = [] := by
  have hv := (ParseAddr_ok_family h).1
  simp [IPAddress.validateAttribute, StringValue.isUnknown, StringValue.isNull,
    StringValue.valueString, h, hv]

lemma IPv4Address_validate_err {s e : String} (h : ParseAddr s = .error e) :
    IPv4Address.validateAttribute ⟨.known s⟩ = [ipv4AddressParseFailure s e] := by
  simp [IPv4Address.validateAttribute, StringValue.isUnknown, StringValue.isNull,
    StringValue.valueString, h, ipv4AddressParseFailure]

lemma IPv4Address_validate_ok {s : String} {a : Addr} (h : ParseAddr s = .ok a) :
    IPv4Address.validateAttribute ⟨.known s⟩ =
      if a.is6 = true then [ipv4AddressFamilyMismatch s] else [] := by
  rcases ParseAddr_ok_family h with ⟨hv, hfam⟩
  rcases hfam with ⟨h4, h6⟩ | ⟨h4, h6⟩ <;>
    simp [IPv4Address.validateAttribute, StringValue.isUnknown, StringValue.isNull,
      StringValue.valueString, h, hv, h4, h6, ipv4AddressFamilyMismatch]

lemma IPv6Address_validate_err {s e : String} (h : ParseAddr s = .error e) :
    IPv6Address.validateAttribute ⟨.known s⟩ = [ipv6AddressParseFailure s e] := by
  simp [IPv6Address.validateAttribute, StringValue.isUnknown, StringValue.isNull,
    StringValue.valueString, h, ipv6AddressParseFailure]

lemma IPv6Address_validate_ok {s : String} {a : Addr} (h : ParseAddr s = .ok a) :
    IPv6Address.validateAttribute ⟨.known s⟩ =
      if a.is4 = true then [ipv6AddressFamilyMismatch s] else [] := by
  rcases ParseAddr_ok_family h with ⟨hv, hfam⟩
  rcases hfam with ⟨h4, h6⟩ | ⟨h4, h6⟩ <;>
    simp [IPv6Address.validateAttribute, StringValue.isUnknown, StringValue.isNull,
      StringValue.valueString, h, hv, h4, h6, ipv6AddressFamilyMismatch]

lemma IPPrefix_validate_err {s e : String} (h : ParsePrefix s = .error e) :
    IPPrefix.validateAttribute ⟨.known s⟩ = [ipPrefixParseFailure s e] := by
  simp [IPPrefix.validateAttribute, StringValue.isUnknown, StringValue.isNull,
    StringValue.valueString, h, ipPrefixParseFailure]

lemma IPPrefix_validate_ok {s : String} {p : NetipPrefix} (h : ParsePrefix s = .ok p) :
    IPPrefix.validateAttribute ⟨.known s⟩ = [] := by
  have hv := (ParsePrefix_ok_facts h).1
  simp [IPPrefix.validateAttribute, StringValue.isUnknown, StringValue.isNull,
    StringValue.valueString, h, hv]

lemma IPv4Prefix_validate_err {s e : String} (h : ParsePrefix s = .error e) :
    IPv4Prefix.validateAttribute ⟨.known s⟩ = [ipv4PrefixParseFailure s e] := by
  simp [IPv4Prefix.validateAttribute, StringValue.isUnknown, StringValue.isNull,
    StringValue.valueString, h, ipv4PrefixParseFailure]

lemma IPv4Prefix_validate_ok {s : String} {p : NetipPrefix} (h : ParsePrefix s = .ok p) :
    IPv4Prefix.validateAttribute ⟨.known s⟩ =
      if p.address.is6 = true then [ipv4PrefixFamilyMismatch s] else [] := by
  rcases ParsePrefix_ok_facts h with ⟨hv, hav, hfam⟩
  rcases hfam with ⟨h4, h6⟩ | ⟨h4, h6⟩ <;>
    simp [IPv4Prefix.validateAttribute, StringValue.isUnknown, StringValue.isNull,
      StringValue.valueString, h, hv, h4, h6, ipv4PrefixFamilyMismatch]

lemma MACAddress_validate_err {s e : String} (h : ParseMAC s = .error e) :
    MACAddress.validateAttribute ⟨.known s⟩ = [macAddressParseFailure s e] := by
  simp [MACAddress.validateAttribute, StringValue.isUnknown, StringValue.isNull,
    StringValue.valueString, h, macAddressParseFailure]

lemma diag_ne_of_detail_ne {d1 d2 : Diagnostic} (h : d1.detail ≠ d2.detail) : d1 ≠ d2 :=
  fun he => h (congrArg Diagnostic.detail he)

lemma string_ne_of_second_char {a b : String} (h : a.data.get? 1 ≠ b.data.get? 1) : a ≠ b :=
  fun he => h (congrArg (fun x => x.data.get? 1) he)

lemma ipv4AddressFamilyMismatch_ne (s e : String) :
    ipv4AddressFamilyMismatch s ≠ ipv4AddressParseFailure s e := by
  apply diag_ne_of_detail_ne
  apply string_ne_of_second_char
  intro h
  rw [show (ipv4AddressFamilyMismatch s).detail.data.get? 1 = some 'n' from rfl] at h
  rw [show (ipv4AddressParseFailure s e).detail.data.get? 1 = some ' ' from rfl] at h
  cases h

lemma ipv6AddressFamilyMismatch_ne (s e : String) :
    ipv6AddressFamilyMismatch s ≠ ipv6AddressParseFailure s e := by
  apply diag_ne_of_detail_ne
  apply string_ne_of_second_char
  intro h
  rw [show (ipv6AddressFamilyMismatch s).detail.data.get? 1 = some 'n' from rfl] at h
  rw [show (ipv6AddressParseFailure s e).detail.data.get? 1 = some ' ' from rfl] at h
  cases h

lemma ipv4PrefixFamilyMismatch_ne (s e : String) :
    ipv4PrefixFamilyMismatch s ≠ ipv4PrefixParseFailure s e := by
  apply diag_ne_of_detail_ne
  apply string_ne_of_second_char
  intro h
  rw [show (ipv4PrefixFamilyMismatch s).detail.data.get? 1 = some 'n' from rfl] at h
  rw [show (ipv4PrefixParseFailure s e).detail.data.get? 1 = some ' ' from rfl] at h
  cases h

/-- The boolean result of `IPAddress.StringSemanticEquals` between two
known strings (the diagnostics are empty in this same-type case). -/
def ipAddressSemEqB (s t : String) : Bool :=
  (IPAddress.stringSemanticEquals ⟨.known s⟩ (.ipAddress ⟨.known t⟩)).1

/-- The boolean result of `IPv6Address.StringSemanticEquals` between two
known strings. -/
def ipv6AddressSemEqB (s t : String) : Bool :=
  (IPv6Address.stringSemanticEquals ⟨.known s⟩ (.ipv6Address ⟨.known t⟩)).1

/-- The boolean result of `IPPrefix.StringSemanticEquals` between two
known strings. -/
def ipPrefixSemEqB (s t : String) : Bool :=
  (IPPrefix.stringSemanticEquals ⟨.known s⟩ (.ipPrefix ⟨.known t⟩)).1

/-- The boolean result of `MACAddress.StringSemanticEquals` between two
known strings. -/
def macAddressSemEqB (s t : String) : Bool :=
  (MACAddress.stringSemanticEquals ⟨.known s⟩ (.macAddress ⟨.known t⟩)).1

lemma ipAddressSemEqB_def (s t : String) :
    ipAddressSemEqB s t = decide (addrOrZero s = addrOrZero t) := rfl

lemma ipv6AddressSemEqB_def (s t : String) :
    ipv6AddressSemEqB s t = decide (addrOrZero s = addrOrZero t) := rfl

lemma ipPrefixSemEqB_def (s t : String) :
    ipPrefixSemEqB s t =
      decide ((prefixOrZero s).address = (prefixOrZero t).address ∧
        (prefixOrZero s).bits = (prefixOrZero t).bits) := rfl

lemma macAddressSemEqB_def (s t : String) :
    macAddressSemEqB s t = decide (macOrNil s = macOrNil t) := rfl

/-! ## The claims -/

/-- C1: for every kind's semantic-equality comparator (IPAddress,
IPv6Address, IPPrefix, MACAddress `StringSemanticEquals`), restricted
to pairs of values of the same wrapper type whose strings are
independently valid for that kind (the kind's validator emits no
diagnostics), the relation "StringSemanticEquals returns true" is
reflexive, symmetric and transitive. -/
theorem c1_semantic_equality_is_equivalence (s t u : String) :
    ((IPAddress.validateAttribute ⟨.known s⟩ = [] → ipAddressSemEqB s s = true) ∧
      (IPAddress.validateAttribute ⟨.known s⟩ = [] → IPAddress.validateAttribute ⟨.known t⟩ = [] →
        ipAddressSemEqB s t = true → ipAddressSemEqB t s = true) ∧
      (IPAddress.validateAttribute ⟨.known s⟩ = [] → IPAddress.validateAttribute ⟨.known t⟩ = [] →
        IPAddress.validateAttribute ⟨.known u⟩ = [] →
        ipAddressSemEqB s t = true → ipAddressSemEqB t u = true → ipAddressSemEqB s u = true)) ∧
    ((IPv6Address.validateAttribute ⟨.known s⟩ = [] → ipv6AddressSemEqB s s = true) ∧
      (IPv6Address.validateAttribute ⟨.known s⟩ = [] → IPv6Address.validateAttribute ⟨.known t⟩ = [] →
        ipv6AddressSemEqB s t = true → ipv6AddressSemEqB t s = true) ∧
      (IPv6Address.validateAttribute ⟨.known s⟩ = [] → IPv6Address.validateAttribute ⟨.known t⟩ = [] →
        IPv6Address.validateAttribute ⟨.known u⟩ = [] →
        ipv6AddressSemEqB s t = true → ipv6AddressSemEqB t u = true → ipv6AddressSemEqB s u = true)) ∧
    ((IPPrefix.validateAttribute ⟨.known s⟩ = [] → ipPrefixSemEqB s s = true) ∧
      (IPPrefix.validateAttribute ⟨.known s⟩ = [] → IPPrefix.validateAttribute ⟨.known t⟩ = [] →
        ipPrefixSemEqB s t = true → ipPrefixSemEqB t s = true) ∧
      (IPPrefix.validateAttribute ⟨.known s⟩ = [] → IPPrefix.validateAttribute ⟨.known t⟩ = [] →
        IPPrefix.validateAttribute ⟨.known u⟩ = [] →
        ipPrefixSemEqB s t = true → ipPrefixSemEqB t u = true → ipPrefixSemEqB s u = true)) ∧
    ((MACAddress.validateAttribute ⟨.known s⟩ = [] → macAddressSemEqB s s = true) ∧
      (MACAddress.validateAttribute ⟨.known s⟩ = [] → MACAddress.validateAttribute ⟨.known t⟩ = [] →
        macAddressSemEqB s t = true → macAddressSemEqB t s = true) ∧
      (MACAddress.validateAttribute ⟨.known s⟩ = [] → MACAddress.validateAttribute ⟨.known t⟩ = [] →
        MACAddress.validateAttribute ⟨.known u⟩ = [] →
        macAddressSemEqB s t = true → macAddressSemEqB t u = true → macAddressSemEqB s u = true)) := by
  refine ⟨⟨?_, ?_, ?_⟩, ⟨?_, ?_, ?_⟩, ⟨?_, ?_, ?_⟩, ⟨?_, ?_, ?_⟩⟩
  · intro _; simp [ipAddressSemEqB_def]
  · intro _ _ h
    simp only [ipAddressSemEqB_def, decide_eq_true_eq] at h ⊢
    exact h.symm
  · intro _ _ _ h1 h2
    simp only [ipAddressSemEqB_def, decide_eq_true_eq] at h1 h2 ⊢
    exact h1.trans h2
  · intro _; simp [ipv6AddressSemEqB_def]
  · intro _ _ h
    simp only [ipv6AddressSemEqB_def, decide_eq_true_eq] at h ⊢
    exact h.symm
  · intro _ _ _ h1 h2
    simp only [ipv6AddressSemEqB_def, decide_eq_true_eq] at h1 h2 ⊢
    exact h1.trans h2
  · intro _; simp [ipPrefixSemEqB_def]
  · intro _ _ h
    simp only [ipPrefixSemEqB_def, decide_eq_true_eq] at h ⊢
    exact ⟨h.1.symm, h.2.symm⟩
  · intro _ _ _ h1 h2
    simp only [ipPrefixSemEqB_def, decide_eq_true_eq] at h1 h2 ⊢
    exact ⟨h1.1.trans h2.1, h1.2.trans h2.2⟩
  · intro _; simp [macAddressSemEqB_def]
  · intro _ _ h
    simp only [macAddressSemEqB_def, decide_eq_true_eq] at h ⊢
    exact h.symm
  · intro _ _ _ h1 h2
    simp only [macAddressSemEqB_def, decide_eq_true_eq] at h1 h2 ⊢
    exact h1.trans h2

/-- Witness for C1: the symmetry conjunct of each kind applied at
concrete valid strings (compressed vs expanded IPv6, compressed vs
expanded IPv6 CIDR, hyphen vs colon MAC notation), discharging every
validity and equality hypothesis by evaluation. -/
theorem c1_semantic_equality_is_equivalence_witness :
    ipAddressSemEqB "0:0:0:0:0:0:0:0" "::" = true ∧
    ipv6AddressSemEqB "2001:DB8:0:0:8:800:200C:417A" "2001:DB8::8:800:200C:417A" = true ∧
    ipPrefixSemEqB "FF00:0:0:0:0:0:0:0/8" "FF00::/8" = true ∧
    macAddressSemEqB "00-00-5e-00-53-00" "00:00:5e:00:53:00" = true :=
  ⟨(c1_semantic_equality_is_equivalence "::" "0:0:0:0:0:0:0:0" "::").1.2.1
      (by decide) (by decide) (by decide),
    (c1_semantic_equality_is_equivalence "2001:DB8::8:800:200C:417A"
        "2001:DB8:0:0:8:800:200C:417A" "::").2.1.2.1 (by decide) (by decide) (by decide),
    (c1_semantic_equality_is_equivalence "FF00::/8" "FF00:0:0:0:0:0:0:0/8" "::/0").2.2.1.2.1
      (by decide) (by decide) (by decide),
    (c1_semantic_equality_is_equivalence "00:00:5e:00:53:00" "00-00-5e-00-53-00"
        "0000.5e00.5300").2.2.2.2.1 (by decide) (by decide) (by decide)⟩

/-- C2: for every known string that is a structurally valid
address/prefix of the wrong family, the family-specific validators emit
the distinct family-mismatch diagnostic ("An IPv6 CIDR string format
was provided, string value must be IPv4 CIDR string format (RFC
4632)." / "An IPv6 string format was provided, string value must be
IPv4 format.", and the IPv4-format analogue for the IPv6-only
validator), and that diagnostic differs from the generic structural
parse-failure diagnostic whatever its error text: the two error paths
are never collapsed. -/
theorem c2_family_mismatch_distinct_diagnostic (s : String) :
    (∀ a : Addr, ParseAddr s = .ok a → a.is6 = true →
      IPv4Address.validateAttribute ⟨.known s⟩ = [ipv4AddressFamilyMismatch s] ∧
      ∀ e, ipv4AddressFamilyMismatch s ≠ ipv4AddressParseFailure s e) ∧
    (∀ a : Addr, ParseAddr s = .ok a → a.is4 = true →
      IPv6Address.validateAttribute ⟨.known s⟩ = [ipv6AddressFamilyMismatch s] ∧
      ∀ e, ipv6AddressFamilyMismatch s ≠ ipv6AddressParseFailure s e) ∧
    (∀ p : NetipPrefix, ParsePrefix s = .ok p → p.address.is6 = true →
      IPv4Prefix.validateAttribute ⟨.known s⟩ = [ipv4PrefixFamilyMismatch s] ∧
      ∀ e, ipv4PrefixFamilyMismatch s ≠ ipv4PrefixParseFailure s e) := by
  refine ⟨?_, ?_, ?_⟩
  · intro a ha h6
    exact ⟨by rw [IPv4Address_validate_ok ha, if_pos h6],
      fun e => ipv4AddressFamilyMismatch_ne s e⟩
  · intro a ha h4
    exact ⟨by rw [IPv6Address_validate_ok ha, if_pos h4],
      fun e => ipv6AddressFamilyMismatch_ne s e⟩
  · intro p hp h6
    exact ⟨by rw [IPv4Prefix_validate_ok hp, if_pos h6],
      fun e => ipv4PrefixFamilyMismatch_ne s e⟩

/-- Witness for C2: the IPv4-only address validator on the valid IPv6
literal `::`, the IPv6-only address validator on the valid IPv4
literal `192.0.2.1`, and the IPv4-only prefix validator on `::/128`,
each yielding exactly the family-mismatch diagnostic. -/
theorem c2_family_mismatch_distinct_diagnostic_witness :
    IPv4Address.validateAttribute ⟨.known "::"⟩ = [ipv4AddressFamilyMismatch "::"] ∧
    IPv6Address.validateAttribute ⟨.known "192.0.2.1"⟩ = [ipv6AddressFamilyMismatch "192.0.2.1"] ∧
    IPv4Prefix.validateAttribute ⟨.known "::/128"⟩ = [ipv4PrefixFamilyMismatch "::/128"] :=
  ⟨((c2_family_mismatch_distinct_diagnostic "::").1 (addrOrZero "::")
      (by decide) (by decide)).1,
    ((c2_family_mismatch_distinct_diagnostic "192.0.2.1").2.1 (addrOrZero "192.0.2.1")
      (by decide) (by decide)).1,
    ((c2_family_mismatch_distinct_diagnostic "::/128").2.2 (prefixOrZero "::/128")
      (by decide) (by decide)).1⟩

/-- The dispatch scan of `netip.ParseAddr` as a predicate: true exactly
when the first of `.`, `:`, `%` occurring in the string is `:`, i.e.
when `ParseAddr` hands the whole literal to the IPv6 parser. -/
def classifiesAsIPv6 : List Char → Bool
  | [] => false
  | c :: rest =>
    if c = '.' then false
    else if c = ':' then true
    else if c = '%' then false
    else classifiesAsIPv6 rest

lemma parseAddrScan_route {s : String} :
    ∀ l : List Char, classifiesAsIPv6 l = true → parseAddrScan s l = parseIPv6 s := by
  intro l
  induction l with
  | nil => intro h; cases h
  | cons c rest ih =>
    intro h
    rw [classifiesAsIPv6] at h
    rw [parseAddrScan]
    split at h
    · cases h
    · split at h
      · simp_all
      · split at h
        · cases h
        · simp_all

/-- C3: every IPv6 literal with an embedded dotted-decimal IPv4 suffix
(a literal containing a dot that `ParseAddr` nevertheless routes to the
IPv6 parser, e.g. `::FFFF:1.2.3.4`) parses to an IPv6 (`Is6`, not
`Is4`) address, so the IPv6-only validator accepts it with no
diagnostic while the IPv4-only validator rejects it with the
family-mismatch diagnostic, which differs from every structural-failure
diagnostic: classification follows the overall literal's structural
family, never the presence of embedded dot notation. -/
theorem c3_embedded_ipv4_suffix_is_ipv6 (s : String) (a : Addr)
    (hroute : classifiesAsIPv6 s.data = true) (_hdot : '.' ∈ s.data)
    (h : ParseAddr s = .ok a) :
    a.is6 = true ∧ a.is4 = false ∧
    IPv6Address.validateAttribute ⟨.known s⟩ = [] ∧
    IPv4Address.validateAttribute ⟨.known s⟩ = [ipv4AddressFamilyMismatch s] ∧
    ∀ e, ipv4AddressFamilyMismatch s ≠ ipv4AddressParseFailure s e := by
  have hp6 : parseIPv6 s = .ok a := by
    rw [← parseAddrScan_route s.data hroute]; exact h
  obtain ⟨zn, hz⟩ := parseIPv6_ok hp6
  obtain ⟨-, h4, h6⟩ := family_of_z6 hz
  refine ⟨h6, h4, ?_, ?_, fun e => ipv4AddressFamilyMismatch_ne s e⟩
  · rw [IPv6Address_validate_ok h, if_neg (by simp [h4])]
  · rw [IPv4Address_validate_ok h, if_pos h6]

/-- Witness for C3: the IPv4-mapped literal `::FFFF:1.2.3.4` taken
through the theorem, every hypothesis discharged by evaluation. -/
theorem c3_embedded_ipv4_suffix_is_ipv6_witness :
    IPv6Address.validateAttribute ⟨.known "::FFFF:1.2.3.4"⟩ = [] ∧
    IPv4Address.validateAttribute ⟨.known "::FFFF:1.2.3.4"⟩ =
      [ipv4AddressFamilyMismatch "::FFFF:1.2.3.4"] :=
  ⟨(c3_embedded_ipv4_suffix_is_ipv6 "::FFFF:1.2.3.4" (addrOrZero "::FFFF:1.2.3.4")
      (by decide) (by decide) (by decide)).2.2.1,
    (c3_embedded_ipv4_suffix_is_ipv6 "::FFFF:1.2.3.4" (addrOrZero "::FFFF:1.2.3.4")
      (by decide) (by decide) (by decide)).2.2.2.1⟩

/-- C4: for every pair of valid prefix strings, `IPPrefix.StringSemanticEquals`
returns true if and only if both the parsed address portion and the
declared bit-length are exactly equal; in particular two prefixes with
the same address but different bit-lengths, or differing host bits,
compare unequal — the address is never masked to the network base
address before comparison. -/
theorem c4_prefix_semantic_equality_exact (s t : String) (p q : NetipPrefix)
    (hs : ParsePrefix s = .ok p) (ht : ParsePrefix t = .ok q) :
    (ipPrefixSemEqB s t = true ↔ (p.address = q.address ∧ p.bits = q.bits)) := by
  rw [ipPrefixSemEqB_def, decide_eq_true_eq]
  unfold prefixOrZero
  rw [hs, ht]

/-- Witness for C4: `104.28.204.175/32` vs `104.28.204.175/31` — equal
address portions, different bit-lengths — compare unequal, via the
theorem applied at those strings and their parses. -/
theorem c4_prefix_semantic_equality_exact_witness :
    ipPrefixSemEqB "104.28.204.175/32" "104.28.204.175/31" = false := by
  have h := c4_prefix_semantic_equality_exact "104.28.204.175/32" "104.28.204.175/31"
    (prefixOrZero "104.28.204.175/32") (prefixOrZero "104.28.204.175/31")
    (by decide) (by decide)
  by_contra hne
  have : ipPrefixSemEqB "104.28.204.175/32" "104.28.204.175/31" = true := by
    revert hne
    cases ipPrefixSemEqB "104.28.204.175/32" "104.28.204.175/31" <;> simp
  have hb := h.mp this
  exact absurd hb.2 (by decide)

/-- C5: for every known string that fails the structural parse for its
requested kind, the validator's diagnostic body is exactly the template
"A string value was provided that is not valid KIND string format (RFC
citation, if applicable)." followed by a blank line, "Given Value: "
with the input reproduced verbatim, a newline, and "Error: " with the
underlying parser's error text reproduced byte-for-byte (see the
`...ParseFailure` definitions for each kind's exact text). -/
theorem c5_structural_failure_diagnostic_template (s e : String) :
    (ParseAddr s = .error e →
      IPAddress.validateAttribute ⟨.known s⟩ = [ipAddressParseFailure s e] ∧
      IPv4Address.validateAttribute ⟨.known s⟩ = [ipv4AddressParseFailure s e] ∧
      IPv6Address.validateAttribute ⟨.known s⟩ = [ipv6AddressParseFailure s e]) ∧
    (ParsePrefix s = .error e →
      IPPrefix.validateAttribute ⟨.known s⟩ = [ipPrefixParseFailure s e] ∧
      IPv4Prefix.validateAttribute ⟨.known s⟩ = [ipv4PrefixParseFailure s e]) ∧
    (ParseMAC s = .error e →
      MACAddress.validateAttribute ⟨.known s⟩ = [macAddressParseFailure s e]) := by
  refine ⟨fun h => ⟨?_, ?_, ?_⟩, fun h => ⟨?_, ?_⟩, fun h => ?_⟩
  · exact IPAddress_validate_err h
  · exact IPv4Address_validate_err h
  · exact IPv6Address_validate_err h
  · exact IPPrefix_validate_err h
  · exact IPv4Prefix_validate_err h
  · exact MACAddress_validate_err h

/-- Witness for C5: three concrete failures — `192168255255` (no
separators) for the address kinds, `127.0.0.0/999` (length out of
range) for the prefix kinds, and a 7-group string for the MAC kind —
each with the underlying Go parser's exact error text embedded in the
diagnostic. -/
theorem c5_structural_failure_diagnostic_template_witness :
    IPAddress.validateAttribute ⟨.known "192168255255"⟩ =
      [ipAddressParseFailure "192168255255" "ParseAddr(\"192168255255\"): unable to parse IP"] ∧
    IPv4Prefix.validateAttribute ⟨.known "127.0.0.0/999"⟩ =
      [ipv4PrefixParseFailure "127.0.0.0/999"
        "netip.ParsePrefix(\"127.0.0.0/999\"): prefix length out of range"] ∧
    MACAddress.validateAttribute ⟨.known "0:0:0:0:0:0:0"⟩ =
      [macAddressParseFailure "0:0:0:0:0:0:0" "address 0:0:0:0:0:0:0: invalid MAC address"] :=
  ⟨((c5_structural_failure_diagnostic_template "192168255255"
        "ParseAddr(\"192168255255\"): unable to parse IP").1 (by decide)).1,
    ((c5_structural_failure_diagnostic_template "127.0.0.0/999"
        "netip.ParsePrefix(\"127.0.0.0/999\"): prefix length out of range").2.1 (by decide)).2,
    (c5_structural_failure_diagnostic_template "0:0:0:0:0:0:0"
        "address 0:0:0:0:0:0:0: invalid MAC address").2.2 (by decide)⟩

/-- C6: for every null or unknown value of every kind, the attribute and
parameter validators return with zero diagnostics, while the typed
accessors (ValueIPAddress, ValueIPv4Address, ValueIPv6Address,
ValueIPPrefix, ValueIPv4Prefix, ValueIPv6Prefix, ValueMACAddress)
always return an error diagnostic with state-specific text ending
"...string value is null" for null and a distinct text ending
"...string value is unknown" for unknown, never a shared message
(the inequality of the two diagnostic lists is stated for each kind). -/
theorem c6_null_unknown_validators_silent_accessors_fail :
    (IPAddress.validateAttribute ⟨.null⟩ = [] ∧ IPAddress.validateAttribute ⟨.unknown⟩ = [] ∧
      IPAddress.validateParameter ⟨.null⟩ = none ∧ IPAddress.validateParameter ⟨.unknown⟩ = none ∧
      IPAddress.valueIPAddress ⟨.null⟩ =
        (Addr.zero, [⟨"IPAddress ValueIPAddress Error", "IP address string value is null"⟩]) ∧
      IPAddress.valueIPAddress ⟨.unknown⟩ =
        (Addr.zero, [⟨"IPAddress ValueIPAddress Error", "IP address string value is unknown"⟩]) ∧
      (IPAddress.valueIPAddress ⟨.null⟩).2 ≠ (IPAddress.valueIPAddress ⟨.unknown⟩).2) ∧
    (IPv4Address.validateAttribute ⟨.null⟩ = [] ∧ IPv4Address.validateAttribute ⟨.unknown⟩ = [] ∧
      IPv4Address.validateParameter ⟨.null⟩ = none ∧ IPv4Address.validateParameter ⟨.unknown⟩ = none ∧
      IPv4Address.valueIPv4Address ⟨.null⟩ =
        (Addr.zero, [⟨"IPv4Address ValueIPv4Address Error", "IPv4 address string value is null"⟩]) ∧
      IPv4Address.valueIPv4Address ⟨.unknown⟩ =
        (Addr.zero, [⟨"IPv4Address ValueIPv4Address Error", "IPv4 address string value is unknown"⟩]) ∧
      (IPv4Address.valueIPv4Address ⟨.null⟩).2 ≠ (IPv4Address.valueIPv4Address ⟨.unknown⟩).2) ∧
    (IPv6Address.validateAttribute ⟨.null⟩ = [] ∧ IPv6Address.validateAttribute ⟨.unknown⟩ = [] ∧
      IPv6Address.validateParameter ⟨.null⟩ = none ∧ IPv6Address.validateParameter ⟨.unknown⟩ = none ∧
      IPv6Address.valueIPv6Address ⟨.null⟩ =
        (Addr.zero, [⟨"IPv6Address ValueIPv6Address Error", "IPv6 address string value is null"⟩]) ∧
      IPv6Address.valueIPv6Address ⟨.unknown⟩ =
        (Addr.zero, [⟨"IPv6Address ValueIPv6Address Error", "IPv6 address string value is unknown"⟩]) ∧
      (IPv6Address.valueIPv6Address ⟨.null⟩).2 ≠ (IPv6Address.valueIPv6Address ⟨.unknown⟩).2) ∧
    (IPPrefix.validateAttribute ⟨.null⟩ = [] ∧ IPPrefix.validateAttribute ⟨.unknown⟩ = [] ∧
      IPPrefix.validateParameter ⟨.null⟩ = none ∧ IPPrefix.validateParameter ⟨.unknown⟩ = none ∧
      IPPrefix.valueIPPrefix ⟨.null⟩ =
        (NetipPrefix.zero, [⟨"IPPrefix ValueIPPrefix Error", "IP CIDR string value is null"⟩]) ∧
      IPPrefix.valueIPPrefix ⟨.unknown⟩ =
        (NetipPrefix.zero, [⟨"IPPrefix ValueIPPrefix Error", "IP CIDR string value is unknown"⟩]) ∧
      (IPPrefix.valueIPPrefix ⟨.null⟩).2 ≠ (IPPrefix.valueIPPrefix ⟨.unknown⟩).2) ∧
    (IPv4Prefix.validateAttribute ⟨.null⟩ = [] ∧ IPv4Prefix.validateAttribute ⟨.unknown⟩ = [] ∧
      IPv4Prefix.validateParameter ⟨.null⟩ = none ∧ IPv4Prefix.validateParameter ⟨.unknown⟩ = none ∧
      IPv4Prefix.valueIPv4Prefix ⟨.null⟩ =
        (NetipPrefix.zero, [⟨"IPv4Prefix ValueIPv4Prefix Error", "IPv4 CIDR string value is null"⟩]) ∧
      IPv4Prefix.valueIPv4Prefix ⟨.unknown⟩ =
        (NetipPrefix.zero, [⟨"IPv4Prefix ValueIPv4Prefix Error", "IPv4 CIDR string value is unknown"⟩]) ∧
      (IPv4Prefix.valueIPv4Prefix ⟨.null⟩).2 ≠ (IPv4Prefix.valueIPv4Prefix ⟨.unknown⟩).2) ∧
    (IPv6Prefix.validateAttribute ⟨.null⟩ = [] ∧ IPv6Prefix.validateAttribute ⟨.unknown⟩ = [] ∧
      IPv6Prefix.validateParameter ⟨.null⟩ = none ∧ IPv6Prefix.validateParameter ⟨.unknown⟩ = none ∧
      IPv6Prefix.valueIPv6Prefix ⟨.null⟩ =
        (NetipPrefix.zero, [⟨"IPv6Prefix ValueIPv6Prefix Error", "IPv6 CIDR string value is null"⟩]) ∧
      IPv6Prefix.valueIPv6Prefix ⟨.unknown⟩ =
        (NetipPrefix.zero, [⟨"IPv6Prefix ValueIPv6Prefix Error", "IPv6 CIDR string value is unknown"⟩]) ∧
      (IPv6Prefix.valueIPv6Prefix ⟨.null⟩).2 ≠ (IPv6Prefix.valueIPv6Prefix ⟨.unknown⟩).2) ∧
    (MACAddress.validateAttribute ⟨.null⟩ = [] ∧ MACAddress.validateAttribute ⟨.unknown⟩ = [] ∧
      MACAddress.validateParameter ⟨.null⟩ = none ∧ MACAddress.validateParameter ⟨.unknown⟩ = none ∧
      MACAddress.valueMACAddress ⟨.null⟩ =
        ([], [⟨"MACAddress ValueMACAddress Error", "MAC address string value is null"⟩]) ∧
      MACAddress.valueMACAddress ⟨.unknown⟩ =
        ([], [⟨"MACAddress ValueMACAddress Error", "MAC address string value is unknown"⟩]) ∧
      (MACAddress.valueMACAddress ⟨.null⟩).2 ≠ (MACAddress.valueMACAddress ⟨.unknown⟩).2) := by
  refine ⟨?_, ?_, ?_, ?_, ?_, ?_, ?_⟩ <;>
    exact ⟨rfl, rfl, rfl, rfl, rfl, rfl, by decide⟩

/-- C7 counterexample: on the known invalid string `abc`, the
`ValueIPAddress` accessor's diagnostic body is the raw parser error
text `ParseAddr("abc"): unable to parse IP`, not the section 4.1
validator template (`"A string value was provided that is not valid
..."` with Given Value and Error lines) the claim asserts. -/
theorem c7_accessor_diagnostic_counterexample :
    (IPAddress.valueIPAddress ⟨.known "abc"⟩).2.map Diagnostic.detail =
      ["ParseAddr(\"abc\"): unable to parse IP"] ∧
    (IPAddress.valueIPAddress ⟨.known "abc"⟩).2.map Diagnostic.detail ≠
      [(ipAddressParseFailure "abc" "ParseAddr(\"abc\"): unable to parse IP").detail] := by
  exact ⟨rfl, by decide⟩

/-- C7 as amended: for every known but invalid string, the typed
accessor fails with exactly one error diagnostic whose body is the
underlying parser's error text alone (titled "KIND ValueKIND Error"),
not the full section 4.1 validator template. -/
theorem c7_accessor_surfaces_raw_parse_error (s e : String) :
    (ParseAddr s = .error e →
      IPAddress.valueIPAddress ⟨.known s⟩ =
        (Addr.zero, [⟨"IPAddress ValueIPAddress Error", e⟩]) ∧
      IPv4Address.valueIPv4Address ⟨.known s⟩ =
        (Addr.zero, [⟨"IPv4Address ValueIPv4Address Error", e⟩]) ∧
      IPv6Address.valueIPv6Address ⟨.known s⟩ =
        (Addr.zero, [⟨"IPv6Address ValueIPv6Address Error", e⟩])) ∧
    (ParsePrefix s = .error e →
      IPPrefix.valueIPPrefix ⟨.known s⟩ =
        (NetipPrefix.zero, [⟨"IPPrefix ValueIPPrefix Error", e⟩]) ∧
      IPv4Prefix.valueIPv4Prefix ⟨.known s⟩ =
        (NetipPrefix.zero, [⟨"IPv4Prefix ValueIPv4Prefix Error", e⟩])) ∧
    (ParseMAC s = .error e →
      MACAddress.valueMACAddress ⟨.known s⟩ =
        ([], [⟨"MACAddress ValueMACAddress Error", e⟩])) := by
  refine ⟨fun h => ⟨?_, ?_, ?_⟩, fun h => ⟨?_, ?_⟩, fun h => ?_⟩ <;>
    simp [IPAddress.valueIPAddress, IPv4Address.valueIPv4Address,
      IPv6Address.valueIPv6Address, IPPrefix.valueIPPrefix,
      IPv4Prefix.valueIPv4Prefix, MACAddress.valueMACAddress,
      StringValue.isNull, StringValue.isUnknown, StringValue.valueString, h]

/-- Witness for C7's amended theorem: the accessors on `abc` (address
kinds), `127.0.0.0/999` (prefix kinds) and a 7-group MAC string, each
surfacing exactly the underlying parser error text. -/
theorem c7_accessor_surfaces_raw_parse_error_witness :
    IPAddress.valueIPAddress ⟨.known "abc"⟩ =
      (Addr.zero, [⟨"IPAddress ValueIPAddress Error", "ParseAddr(\"abc\"): unable to parse IP"⟩]) ∧
    IPv4Prefix.valueIPv4Prefix ⟨.known "127.0.0.0/999"⟩ =
      (NetipPrefix.zero, [⟨"IPv4Prefix ValueIPv4Prefix Error",
        "netip.ParsePrefix(\"127.0.0.0/999\"): prefix length out of range"⟩]) ∧
    MACAddress.valueMACAddress ⟨.known "0:0:0:0:0:0:0"⟩ =
      ([], [⟨"MACAddress ValueMACAddress Error", "address 0:0:0:0:0:0:0: invalid MAC address"⟩]) :=
  ⟨((c7_accessor_surfaces_raw_parse_error "abc"
        "ParseAddr(\"abc\"): unable to parse IP").1 (by decide)).1,
    ((c7_accessor_surfaces_raw_parse_error "127.0.0.0/999"
        "netip.ParsePrefix(\"127.0.0.0/999\"): prefix length out of range").2.1 (by decide)).2,
    (c7_accessor_surfaces_raw_parse_error "0:0:0:0:0:0:0"
        "address 0:0:0:0:0:0:0: invalid MAC address").2.2 (by decide)⟩

/-- C8: for every semantic-equality call where the operand is not the
same declared wrapper type as the receiver, `StringSemanticEquals`
returns false together with exactly one error diagnostic — the
"Semantic Equality Check Error" whose text names both the expected
value type and the received value type — never a bare not-equal
result. -/
theorem c8_type_mismatch_hard_error (o : StringValuable) :
    (∀ v : IPAddress, (∀ w, o ≠ .ipAddress w) →
      IPAddress.stringSemanticEquals v o =
        (false, [semanticEqualityCheckErrorDiag "iptypes.IPAddress" o.goTypeName])) ∧
    (∀ v : IPv6Address, (∀ w, o ≠ .ipv6Address w) →
      IPv6Address.stringSemanticEquals v o =
        (false, [semanticEqualityCheckErrorDiag "iptypes.IPv6Address" o.goTypeName])) ∧
    (∀ v : IPPrefix, (∀ w, o ≠ .ipPrefix w) →
      IPPrefix.stringSemanticEquals v o =
        (false, [semanticEqualityCheckErrorDiag "cidrtypes.IPPrefix" o.goTypeName])) ∧
    (∀ v : MACAddress, (∀ w, o ≠ .macAddress w) →
      MACAddress.stringSemanticEquals v o =
        (false, [semanticEqualityCheckErrorDiag "hwtypes.MACAddress" o.goTypeName])) := by
  refine ⟨fun v h => ?_, fun v h => ?_, fun v h => ?_, fun v h => ?_⟩ <;>
    cases o <;> first
      | rfl
      | exact absurd rfl (h _)

/-- Witness for C8: each comparator given a raw `basetypes.StringValue`
operand (the same underlying string), via the theorem with the
type-mismatch hypothesis discharged by constructor disjointness. -/
theorem c8_type_mismatch_hard_error_witness :
    IPAddress.stringSemanticEquals ⟨.known "::"⟩ (.stringValue (.known "::")) =
      (false, [semanticEqualityCheckErrorDiag "iptypes.IPAddress" "basetypes.StringValue"]) ∧
    MACAddress.stringSemanticEquals ⟨.known "00:00:5e:00:53:00"⟩
        (.stringValue (.known "00:00:5e:00:53:00")) =
      (false, [semanticEqualityCheckErrorDiag "hwtypes.MACAddress" "basetypes.StringValue"]) :=
  ⟨(c8_type_mismatch_hard_error (.stringValue (.known "::"))).1 ⟨.known "::"⟩
      (fun _w h => StringValuable.noConfusion h),
    (c8_type_mismatch_hard_error (.stringValue (.known "00:00:5e:00:53:00"))).2.2.2
      ⟨.known "00:00:5e:00:53:00"⟩ (fun _w h => StringValuable.noConfusion h)⟩

/-- C9: for every pair of operands of the same wrapper type,
`StringSemanticEquals` returns an empty diagnostics collection whatever
the strings' content or three-state status: parse errors during the
comparison are silently discarded, so two null values, and two known
unparseable strings (both parsing to the zero address / zero prefix /
nil hardware address), are reported semantically equal with no
diagnostic. -/
theorem c9_same_type_never_diagnoses (v w : StringValue) :
    ((IPAddress.stringSemanticEquals ⟨v⟩ (.ipAddress ⟨w⟩)).2 = [] ∧
      (IPv6Address.stringSemanticEquals ⟨v⟩ (.ipv6Address ⟨w⟩)).2 = [] ∧
      (IPPrefix.stringSemanticEquals ⟨v⟩ (.ipPrefix ⟨w⟩)).2 = [] ∧
      (MACAddress.stringSemanticEquals ⟨v⟩ (.macAddress ⟨w⟩)).2 = []) ∧
    ((IPAddress.stringSemanticEquals ⟨.null⟩ (.ipAddress ⟨.null⟩)).1 = true ∧
      (IPv6Address.stringSemanticEquals ⟨.null⟩ (.ipv6Address ⟨.null⟩)).1 = true ∧
      (IPPrefix.stringSemanticEquals ⟨.null⟩ (.ipPrefix ⟨.null⟩)).1 = true ∧
      (MACAddress.stringSemanticEquals ⟨.null⟩ (.macAddress ⟨.null⟩)).1 = true) ∧
    (∀ s t e f : String,
      (ParseAddr s = .error e → ParseAddr t = .error f →
        ipAddressSemEqB s t = true ∧ ipv6AddressSemEqB s t = true) ∧
      (ParsePrefix s = .error e → ParsePrefix t = .error f →
        ipPrefixSemEqB s t = true) ∧
      (ParseMAC s = .error e → ParseMAC t = .error f →
        macAddressSemEqB s t = true)) := by
  refine ⟨⟨rfl, rfl, rfl, rfl⟩, ⟨by decide, by decide, by decide, by decide⟩,
    fun s t e f => ⟨fun hs ht => ?_, fun hs ht => ?_, fun hs ht => ?_⟩⟩
  · constructor <;>
      simp [ipAddressSemEqB_def, ipv6AddressSemEqB_def, addrOrZero, hs, ht]
  · simp [ipPrefixSemEqB_def, prefixOrZero, hs, ht]
  · simp [macAddressSemEqB_def, macOrNil, hs, ht]

/-- Witness for C9: two distinct unparseable strings compare
semantically equal with no diagnostic under every comparator, via the
theorem's third block applied at `abc` vs `xyz` (addresses and MACs)
and `abc` vs `xyz` for prefixes, hypotheses discharged by evaluation. -/
theorem c9_same_type_never_diagnoses_witness :
    ipAddressSemEqB "abc" "xyz" = true ∧
    ipPrefixSemEqB "abc" "xyz" = true ∧
    macAddressSemEqB "abc" "xyz" = true :=
  ⟨((c9_same_type_never_diagnoses .null .null).2.2 "abc" "xyz"
      "ParseAddr(\"abc\"): unable to parse IP" "ParseAddr(\"xyz\"): unable to parse IP").1
      (by decide) (by decide) |>.1,
    ((c9_same_type_never_diagnoses .null .null).2.2 "abc" "xyz"
      "netip.ParsePrefix(\"abc\"): no \x27/\x27" "netip.ParsePrefix(\"xyz\"): no \x27/\x27").2.1
      (by decide) (by decide),
    ((c9_same_type_never_diagnoses .null .null).2.2 "abc" "xyz"
      "address abc: invalid MAC address" "address xyz: invalid MAC address").2.2
      (by decide) (by decide)⟩

/-- C10: the family-specific validators' final fallback branches
(guarded by `!addr.IsValid() || !addr.Is4()`, resp. `!Is6()` and the
prefix analogue) are unreachable: whenever the underlying parse
succeeds the result is valid and exactly one family predicate holds, so
the validator's output is fully decided by the earlier family-mismatch
check — the family-mismatch diagnostic when the family is wrong,
nothing otherwise — and the fallback diagnostic is never emitted. -/
theorem c10_fallback_branch_unreachable (s : String) :
    (∀ a : Addr, ParseAddr s = .ok a →
      a.isValid = true ∧ (a.is4 = true ↔ a.is6 = false) ∧
      IPv4Address.validateAttribute ⟨.known s⟩ =
        (if a.is6 = true then [ipv4AddressFamilyMismatch s] else []) ∧
      IPv6Address.validateAttribute ⟨.known s⟩ =
        (if a.is4 = true then [ipv6AddressFamilyMismatch s] else [])) ∧
    (∀ p : NetipPrefix, ParsePrefix s = .ok p →
      p.isValid = true ∧ p.address.isValid = true ∧
      (p.address.is4 = true ↔ p.address.is6 = false) ∧
      IPv4Prefix.validateAttribute ⟨.known s⟩ =
        (if p.address.is6 = true then [ipv4PrefixFamilyMismatch s] else [])) := by
  constructor
  · intro a ha
    obtain ⟨hv, hfam⟩ := ParseAddr_ok_family ha
    refine ⟨hv, ?_, IPv4Address_validate_ok ha, IPv6Address_validate_ok ha⟩
    rcases hfam with ⟨h4, h6⟩ | ⟨h4, h6⟩ <;> simp [h4, h6]
  · intro p hp
    obtain ⟨hv, hav, hfam⟩ := ParsePrefix_ok_facts hp
    refine ⟨hv, hav, ?_, IPv4Prefix_validate_ok hp⟩
    rcases hfam with ⟨h4, h6⟩ | ⟨h4, h6⟩ <;> simp [h4, h6]

/-- Witness for C10: applied at the right-family inputs `192.0.2.1` and
`172.16.0.0/12`, where the validators emit nothing (neither the family
mismatch nor the fallback diagnostic). -/
theorem c10_fallback_branch_unreachable_witness :
    IPv4Address.validateAttribute ⟨.known "192.0.2.1"⟩ = [] ∧
    IPv4Prefix.validateAttribute ⟨.known "172.16.0.0/12"⟩ = [] := by
  have h1 := ((c10_fallback_branch_unreachable "192.0.2.1").1 (addrOrZero "192.0.2.1")
    (by decide)).2.2.1
  have h2 := ((c10_fallback_branch_unreachable "172.16.0.0/12").2
    (prefixOrZero "172.16.0.0/12") (by decide)).2.2.2
  rw [if_neg (by decide)] at h1
  rw [if_neg (by decide)] at h2
  exact ⟨h1, h2⟩
